import Mathlib

/-!
Verification of the blueparser document-understanding pipeline.

The Python source (src/) is shallowly embedded here:
 * `TextItem`, `BBox` model the normalized OCR text-item records; the
   coordinates are exact fractions.  Every Python float (IEEE binary64) is
   an exact fraction, and comparing stored doubles compares their exact
   values, so only an operation whose binary64 rounding can change an
   outcome needs explicit rounding: the table extractor's row-clustering
   subtraction is modelled with round-to-53-bit, ties-to-even rounding
   (`roundTo53`, `f64sub`), and the concrete fixtures carry the binary64
   values of the source's decimal literals.
 * A small backtracking regex engine (`Pat`, `matchP`, `search`, `findall`)
   models exactly the fragment of Python `re` that the source patterns use:
   literals (with IGNORECASE), character classes, greedy and lazy
   repetition, alternation, option, capture groups, lookahead, word
   boundary, anchors, leftmost-match search, non-overlapping findall.
 * Each extractor / parser function of the repository is translated to a
   Lean function of the same name over these models, and fallible Python
   code (KeyError, ValueError from max of an empty sequence,
   AttributeError from None.get) returns `Except PyErr`.
-/

/-- Python whitespace class `\s` restricted to ASCII (space, tab, newline,
carriage return, vertical tab, form feed). -/
def isSpaceC (c : Char) : Bool :=
  c == ' ' || c == '\t' || c == '\n' || c == '\r' || c == '\x0b' || c == '\x0c'

/-- ASCII decimal digit, Python `\d`. -/
def isDigitC (c : Char) : Bool :=
  '0' ≤ c && c ≤ '9'

/-- Python `\w`: letters, digits, underscore (ASCII). -/
def isWordC (c : Char) : Bool :=
  ('A' ≤ c && c ≤ 'Z') || ('a' ≤ c && c ≤ 'z') || isDigitC c || c == '_'

/-- ASCII uppercase letter. -/
def isUpperAlpha (c : Char) : Bool :=
  'A' ≤ c && c ≤ 'Z'

/-- ASCII lowercase letter. -/
def isLowerAlpha (c : Char) : Bool :=
  'a' ≤ c && c ≤ 'z'

/-- ASCII letter. -/
def isAlphaC (c : Char) : Bool :=
  isUpperAlpha c || isLowerAlpha c

/-- ASCII upper-casing, Python `str.upper` on the ASCII inputs used here. -/
def pyUpperChar (c : Char) : Char :=
  if isLowerAlpha c then Char.ofNat (c.toNat - 32) else c

/-- ASCII lower-casing, Python `str.lower`. -/
def pyLowerChar (c : Char) : Char :=
  if isUpperAlpha c then Char.ofNat (c.toNat + 32) else c

def pyUpper (s : String) : String := String.mk (s.data.map pyUpperChar)

def pyLower (s : String) : String := String.mk (s.data.map pyLowerChar)

def dropLeadingSpaces : List Char → List Char
  | [] => []
  | c :: cs => if isSpaceC c then dropLeadingSpaces cs else c :: cs

/-- Python `str.strip()`: remove leading and trailing whitespace. -/
def pyStrip (s : String) : String :=
  String.mk ((dropLeadingSpaces (dropLeadingSpaces s.data).reverse).reverse)

/-- Does `pat` occur at the head of `l`? -/
def headMatches : List Char → List Char → Bool
  | _, [] => true
  | [], _ :: _ => false
  | c :: cs, d :: ds => c == d && headMatches cs ds

/-- Python substring containment `needle in haystack` on char lists. -/
def containsSubL (hay needle : List Char) : Bool :=
  match hay with
  | [] => headMatches [] needle
  | _ :: rest => headMatches hay needle || containsSubL rest needle

/-- Python substring containment `needle in haystack`. -/
def containsSub (hay needle : String) : Bool :=
  containsSubL hay.data needle.data

/-- Python `str.isupper`: at least one cased character and no lowercase
cased character (ASCII). -/
def pyIsUpper (s : String) : Bool :=
  s.data.any (fun c => isAlphaC c) && s.data.all (fun c => !(isLowerAlpha c))

/-- Python `str.split(sep)` for a single-character separator. -/
def splitOnChar (sep : Char) (s : String) : List String :=
  (s.data.splitOnP (fun c => c == sep)).map String.mk

/-! ### A Python-`re` fragment

`Pat` covers exactly the regex features appearing in the repository's
patterns.  `matchP` is a continuation-passing backtracking matcher whose
ordering of alternatives reproduces Python's: greedy repetition prefers
longer, lazy repetition prefers shorter, alternation prefers the left arm,
and `search` returns the leftmost successful start position. -/

inductive Pat where
  /-- empty pattern -/
  | eps : Pat
  /-- literal character sequence; `ci` = IGNORECASE -/
  | lit : List Char → Bool → Pat
  /-- single character from a class -/
  | cls : (Char → Bool) → Pat
  /-- greedy `[..]*` over a class -/
  | star : (Char → Bool) → Pat
  /-- greedy `[..]+` over a class -/
  | plus : (Char → Bool) → Pat
  /-- lazy `[..]+?` over a class -/
  | lazyPlus : (Char → Bool) → Pat
  /-- greedy counted repetition `[..]{lo,hi}` over a class -/
  | rep : (Char → Bool) → Nat → Nat → Pat
  /-- greedy `?` -/
  | opt : Pat → Pat
  /-- alternation, left arm preferred -/
  | alt : Pat → Pat → Pat
  /-- concatenation -/
  | seq : Pat → Pat → Pat
  /-- numbered capture group -/
  | grp : Nat → Pat → Pat
  /-- zero-width lookahead `(?=p)` (`neg = false`) or `(?!p)` (`neg = true`) -/
  | look : Pat → Bool → Pat
  /-- word boundary `\b` -/
  | bnd : Pat
  /-- `^` (with MULTILINE flag) -/
  | bol : Bool → Pat
  /-- `$` (with MULTILINE flag) -/
  | eol : Bool → Pat
  /-- greedy star over an arbitrary subpattern -/
  | starP : Pat → Pat

/-- Capture list: `(group index, start, stop)`, most recent first. -/
abbrev Grps := List (Nat × Nat × Nat)

/-- Match result threaded through continuations: stop position and groups. -/
abbrev MRes := Option (Nat × Grps)

/-- Continuation taking the position after the sub-match and captures so far. -/
abbrev MCont := Nat → Grps → MRes

def charEqCI (ci : Bool) (a b : Char) : Bool :=
  if ci then pyLowerChar a == pyLowerChar b else a == b

/-- Match a literal starting at position `i`; returns the stop position. -/
def litAt (text : List Char) (ci : Bool) : List Char → Nat → Option Nat
  | [], i => some i
  | c :: cs, i =>
    match text[i]? with
    | some d => if charEqCI ci c d then litAt text ci cs (i + 1) else none
    | none => none

/-- Length of the maximal run of class characters starting at `i`. -/
def runLenAux (text : List Char) (f : Char → Bool) : Nat → Nat → Nat
  | _, 0 => 0
  | i, fuel + 1 =>
    match text[i]? with
    | some c => if f c then runLenAux text f (i + 1) fuel + 1 else 0
    | none => 0

def runLen (text : List Char) (f : Char → Bool) (i : Nat) : Nat :=
  runLenAux text f i text.length

/-- Try the continuation at offsets `lo + cnt, lo + cnt - 1, …, lo` from `i`
(the greedy backtracking order for class repetition). -/
def tryCounts (k : MCont) (i lo : Nat) (g : Grps) : Nat → MRes
  | 0 => k (i + lo) g
  | d + 1 =>
    match k (i + lo + d + 1) g with
    | some r => some r
    | none => tryCounts k i lo g d

/-- Try the continuation at offsets `lo, lo + 1, …, lo + cnt` from `i`
(the lazy order). -/
def tryUp (k : MCont) (i lo : Nat) (g : Grps) : Nat → MRes
  | 0 => k (i + lo) g
  | d + 1 =>
    match k (i + lo) g with
    | some r => some r
    | none => tryUp k (i + 1) lo g d

def isWordAt (text : List Char) (j : Nat) : Bool :=
  match text[j]? with
  | some c => isWordC c
  | none => false

/-- Size measure used to compute a sufficient fuel for the matcher. -/
def patSize : Pat → Nat
  | .opt p => patSize p + 1
  | .alt p q => patSize p + patSize q + 1
  | .seq p q => patSize p + patSize q + 1
  | .grp _ p => patSize p + 1
  | .look p _ => patSize p + 1
  | .starP p => patSize p + 1
  | _ => 1

/-- The backtracking matcher.  `matchP text fuel p i k g` attempts `p` at
position `i` of `text` with captures `g`, calling `k` on every candidate
way to match, in Python's preference order, and returns the first
success.  The fuel argument only makes the recursion structural (so that
the definition reduces inside the kernel); `matchFuel` below always
supplies enough of it: every recursion step either descends into a
strictly smaller pattern or, for the star over a subpattern, strictly
advances the position, and an iteration of that star that consumes
nothing ends the loop, exactly as Python's `re` does for empty matches. -/
def matchP (text : List Char) : Nat → Pat → Nat → MCont → Grps → MRes
  | 0, _, _, _, _ => none
  | _ + 1, .eps, i, k, g => k i g
  | _ + 1, .lit s ci, i, k, g =>
    match litAt text ci s i with
    | some j => k j g
    | none => none
  | _ + 1, .cls f, i, k, g =>
    match text[i]? with
    | some c => if f c then k (i + 1) g else none
    | none => none
  | _ + 1, .star f, i, k, g => tryCounts k i 0 g (runLen text f i)
  | _ + 1, .plus f, i, k, g =>
    match runLen text f i with
    | 0 => none
    | n + 1 => tryCounts k i 1 g n
  | _ + 1, .lazyPlus f, i, k, g =>
    match runLen text f i with
    | 0 => none
    | n + 1 => tryUp k i 1 g n
  | _ + 1, .rep f lo hi, i, k, g =>
    let n := min (runLen text f i) hi
    if n < lo then none else tryCounts k i lo g (n - lo)
  | fuel + 1, .opt p, i, k, g =>
    match matchP text fuel p i k g with
    | some r => some r
    | none => k i g
  | fuel + 1, .alt p q, i, k, g =>
    match matchP text fuel p i k g with
    | some r => some r
    | none => matchP text fuel q i k g
  | fuel + 1, .seq p q, i, k, g =>
    matchP text fuel p i (fun j g' => matchP text fuel q j k g') g
  | fuel + 1, .grp n p, i, k, g =>
    matchP text fuel p i (fun j g' => k j ((n, i, j) :: g')) g
  | fuel + 1, .look p neg, i, k, g =>
    match matchP text fuel p i (fun j g' => some (j, g')) g with
    | some _ => if neg then none else k i g
    | none => if neg then k i g else none
  | _ + 1, .bnd, i, k, g =>
    let left := if i = 0 then false else isWordAt text (i - 1)
    if left != isWordAt text i then k i g else none
  | _ + 1, .bol ml, i, k, g =>
    if i = 0 || (ml && decide (1 ≤ i) && (text[i - 1]? == some '\n')) then k i g
    else none
  | _ + 1, .eol ml, i, k, g =>
    if i = text.length
        || (ml && (text[i]? == some '\n'))
        || (!ml && i + 1 = text.length && (text[i]? == some '\n')) then
      k i g
    else none
  | fuel + 1, .starP p, i, k, g =>
    match matchP text fuel p i
        (fun j g' => if i < j then matchP text fuel (.starP p) j k g' else none) g with
    | some r => some r
    | none => k i g

/-- Fuel sufficient for the patterns of this file (no nested subpattern
stars): the star bodies advance the position on every iteration, so the
recursion depth is bounded by one pattern traversal per position. -/
def matchFuel (p : Pat) (text : List Char) : Nat :=
  (text.length + 2) * (patSize p + 2)

/-- `re.search`: leftmost match; returns (start, stop, groups). -/
def searchFrom (text : List Char) (p : Pat) : Nat → Nat → Option (Nat × Nat × Grps)
  | _, 0 => none
  | i, fuel + 1 =>
    match matchP text (matchFuel p text) p i (fun j g => some (j, g)) [] with
    | some (j, g) => some (i, j, g)
    | none =>
      if i < text.length then searchFrom text p (i + 1) fuel else none

def search (p : Pat) (s : String) : Option (Nat × Nat × Grps) :=
  searchFrom s.data p 0 (s.data.length + 1)

/-- `re.match`: anchored at position 0. -/
def matchStart (p : Pat) (s : String) : Option (Nat × Grps) :=
  matchP s.data (matchFuel p s.data) p 0 (fun j g => some (j, g)) []

/-- Slice `text[s:e]` as a string. -/
def sliceStr (text : List Char) (s e : Nat) : String :=
  String.mk ((text.drop s).take (e - s))

/-- Captured text of group `n`, if the group participated in the match. -/
def groupStr (text : List Char) (g : Grps) (n : Nat) : Option String :=
  match g.find? (fun t => t.1 == n) with
  | some (_, s, e) => some (sliceStr text s e)
  | none => none

/-- `re.search(p, s)` followed by `.group(1)`, `none` when there is no
match. -/
def searchGroup1 (p : Pat) (s : String) : Option String :=
  match search p s with
  | some (_, _, g) => groupStr s.data g 1
  | none => none

/-- `re.findall`: non-overlapping matches left to right; a zero-width
match advances by one. -/
def findallFrom (text : List Char) (p : Pat) : Nat → Nat → List (Nat × Nat × Grps)
  | _, 0 => []
  | i, fuel + 1 =>
    match searchFrom text p i (text.length + 1 - i) with
    | some (s, e, g) =>
      (s, e, g) :: findallFrom text p (if s < e then e else e + 1) fuel
    | none => []

def findall (p : Pat) (s : String) : List (Nat × Nat × Grps) :=
  findallFrom s.data p 0 (s.data.length + 1)

/-- `re.findall` rendering one group per match (`re.findall` with a single
capture group returns the group's text). -/
def findallG1 (p : Pat) (s : String) : List String :=
  (findall p s).map (fun t => (groupStr s.data t.2.2 1).getD "")

/-- `re.findall` rendering two groups per match as pairs; a group that did
not participate renders as the empty string, as in Python. -/
def findallG2 (p : Pat) (s : String) : List (String × String) :=
  (findall p s).map (fun t =>
    ((groupStr s.data t.2.2 1).getD "", (groupStr s.data t.2.2 2).getD ""))

/-- `re.findall` rendering three groups per match. -/
def findallG3 (p : Pat) (s : String) : List (String × String × String) :=
  (findall p s).map (fun t =>
    ((groupStr s.data t.2.2 1).getD "", (groupStr s.data t.2.2 2).getD "",
      (groupStr s.data t.2.2 3).getD ""))

/-- Literal pattern from a string. -/
def litS (s : String) : Pat := .lit s.data false

/-- Case-insensitive literal pattern from a string. -/
def litCI (s : String) : Pat := .lit s.data true

/-- Right-nested concatenation of a pattern list. -/
def seqL : List Pat → Pat
  | [] => .eps
  | [p] => p
  | p :: ps => .seq p (seqL ps)

/-! ### Data model (TextItem, zones, records) -/

/-- An exact fraction with a positive denominator.  The source works with
Python floats (IEEE binary64); every double is an exact fraction and the
comparison of two stored doubles is the comparison of their exact values,
so `Frac` carries coordinates faithfully.  Where a computed result is
itself rounded to a double and the rounding can change a comparison — the
row-clustering subtraction of the table extractor — the rounding is
modelled explicitly (`roundTo53`, `f64sub`).  The zone-threshold sums and
products are modelled exactly: the properties proved about them (the
empty-input crash, and the partition property, which only needs the 15
and 85 percent thresholds to be ordered) are unaffected by monotone
rounding.  A self-contained type is used rather than Mathlib's `Rat`
because its arithmetic must reduce inside `decide`. -/
structure Frac where
  num : Int
  den : Int
  den_pos : 0 < den

instance : DecidableEq Frac := fun a b =>
  if h : a.num = b.num ∧ a.den = b.den then
    .isTrue (by cases a; cases b; cases h; subst_eqs; rfl)
  else
    .isFalse (fun hh => h (by cases hh; exact ⟨rfl, rfl⟩))

instance : Repr Frac := ⟨fun x _ => repr (x.num, x.den)⟩

def Frac.ofInt (n : Int) : Frac := ⟨n, 1, by decide⟩

def Frac.mul (x y : Frac) : Frac :=
  ⟨x.num * y.num, x.den * y.den, mul_pos x.den_pos y.den_pos⟩

def Frac.add (x y : Frac) : Frac :=
  ⟨x.num * y.den + y.num * x.den, x.den * y.den, mul_pos x.den_pos y.den_pos⟩

def Frac.sub (x y : Frac) : Frac :=
  ⟨x.num * y.den - y.num * x.den, x.den * y.den, mul_pos x.den_pos y.den_pos⟩

/-- absolute value -/
def Frac.absF (x : Frac) : Frac := ⟨|x.num|, x.den, x.den_pos⟩

/-- strict comparison by cross-multiplication (denominators positive) -/
def Frac.blt (x y : Frac) : Bool := decide (x.num * y.den < y.num * x.den)

def Frac.ble (x y : Frac) : Bool := decide (x.num * y.den ≤ y.num * x.den)

/-- Python `max` of two values: the second only on strict increase, so the
first maximal element of a fold wins. -/
def Frac.fmax (x y : Frac) : Frac := if Frac.blt x y then y else x

/-- The value of a `Frac` as a Mathlib rational (for order reasoning). -/
def Frac.toRat (x : Frac) : ℚ := (x.num : ℚ) / (x.den : ℚ)

/-- Number of binary digits of a natural number (fueled, so that the
recursion is structural and reduces inside the kernel). -/
def blenAux : Nat → Nat → Nat
  | 0, _ => 0
  | fuel + 1, n => if n = 0 then 0 else blenAux fuel (n / 2) + 1

def blen (n : Nat) : Nat := blenAux (n + 1) n

/-- Round the rational `n / d` (`d` positive) to 53 significant binary
digits, ties to even.  This is exactly IEEE binary64 rounding for every
result whose magnitude stays inside the normal double range, which the
page-fraction arithmetic of this repository always does (no subnormals,
no overflow).  The result's denominator is a power of two, so it is again
an exactly-represented double. -/
def roundTo53 (n d : Int) (_hd : 0 < d) : Frac :=
  if n = 0 then ⟨0, 1, by decide⟩
  else
    let a := n.natAbs
    let dd := d.natAbs
    let e0 : Int := (blen a : Int) - (blen dd : Int)
    let geE0 : Bool :=
      if 0 ≤ e0 then decide (dd * 2 ^ e0.toNat ≤ a)
      else decide (dd ≤ a * 2 ^ (-e0).toNat)
    let E : Int := if geE0 then e0 else e0 - 1
    let p : Int := 52 - E
    let num := a * 2 ^ p.toNat
    let den := dd * 2 ^ (-p).toNat
    let m0 := num / den
    let r := num % den
    let m : Nat :=
      if 2 * r < den then m0
      else if den < 2 * r then m0 + 1
      else if m0 % 2 = 0 then m0 else m0 + 1
    let sign : Int := if n < 0 then -1 else 1
    if 0 ≤ p then ⟨sign * m, 2 ^ p.toNat, pow_pos (by decide) _⟩
    else ⟨sign * (m * 2 ^ (-p).toNat), 1, by decide⟩

/-- Binary64 subtraction of two exactly-represented doubles: the exact
difference, rounded to nearest with ties to even — Python `x - y` on
floats. -/
def f64sub (x y : Frac) : Frac :=
  roundTo53 (Frac.sub x y).num (Frac.sub x y).den (Frac.sub x y).den_pos

/-- Normalized bounding box, fractions of the page dimensions. -/
structure BBox where
  left : Frac
  top : Frac
  width : Frac
  height : Frac
deriving DecidableEq, Repr

/-- One OCR text item (the atomic input record of the pipeline). -/
structure TextItem where
  text : String
  confidence : Frac
  bbox : BBox
  page : Int
deriving DecidableEq, Repr

/-- Python exceptions surfaced by the embedded code. -/
inductive PyErr where
  /-- `KeyError` from a failed dict lookup -/
  | keyError : PyErr
  /-- `ValueError: max() arg is an empty sequence` -/
  | valueErrorEmptyMax : PyErr
  /-- `AttributeError` from calling a method on `None` -/
  | attributeError : PyErr
deriving DecidableEq, Repr

instance {ε α : Type} [DecidableEq ε] [DecidableEq α] :
    DecidableEq (Except ε α) := fun a b =>
  match a, b with
  | .error e, .error f =>
    if h : e = f then .isTrue (by rw [h])
    else .isFalse (fun hh => h (by cases hh; rfl))
  | .error _, .ok _ => .isFalse (fun hh => by cases hh)
  | .ok _, .error _ => .isFalse (fun hh => by cases hh)
  | .ok x, .ok y =>
    if h : x = y then .isTrue (by rw [h])
    else .isFalse (fun hh => h (by cases hh; rfl))

/-- `' '.join(item['text'] for item in items)`. -/
def joinTexts (items : List TextItem) : String :=
  String.intercalate " " (items.map (fun it => it.text))

/-- `max(xs)`; Python raises ValueError on an empty sequence. -/
def pyMax : List Frac → Except PyErr Frac
  | [] => .error .valueErrorEmptyMax
  | x :: xs => .ok (xs.foldl Frac.fmax x)

/-! ### TitleBlockExtractor (src/extractors/TitleBlockExtractor.py) -/

/-- class `[.\s#-]` -/
def clsDotSpHD (c : Char) : Bool := c == '.' || isSpaceC c || c == '#' || c == '-'

/-- class `[.\s]` -/
def clsDotSp (c : Char) : Bool := c == '.' || isSpaceC c

/-- class `[A-Z0-9-]` under IGNORECASE -/
def clsANDashCI (c : Char) : Bool := isAlphaC c || isDigitC c || c == '-'

/-- class `[A-Z0-9]` under IGNORECASE -/
def clsANCI (c : Char) : Bool := isAlphaC c || isDigitC c

/-- class `[:\s]` -/
def clsColSp (c : Char) : Bool := c == ':' || isSpaceC c

/-- class `[.:\s]` -/
def clsDotColSp (c : Char) : Bool := c == '.' || c == ':' || isSpaceC c

/-- class `[^\n,]` -/
def clsNotNLComma (c : Char) : Bool := !(c == '\n' || c == ',')

/-- class `[^\n]` -/
def clsNotNL (c : Char) : Bool := !(c == '\n')

/-- class `[^\n.]` -/
def clsNotNLDot (c : Char) : Bool := !(c == '\n' || c == '.')

/-- class `[A-Z\s]` under IGNORECASE -/
def clsAlphaSpCI (c : Char) : Bool := isAlphaC c || isSpaceC c

/-- the slash-or-dash class (written slash dash in the source) -/
def clsSlashDash (c : Char) : Bool := c == '/' || c == '-'

namespace TitleBlockExtractor

/-- The source's per-field loop: try patterns in order, return the first
match's `group(1)`. -/
def firstSearchGroup1 : List Pat → String → Option String
  | [], _ => none
  | p :: ps, text =>
    match searchGroup1 p text with
    | some v => some v
    | none => firstSearchGroup1 ps text

/-- `DWG[.\s#-]*([A-Z0-9-]+)` (IGNORECASE) -/
def patDwg : Pat := seqL [litCI "DWG", .star clsDotSpHD, .grp 1 (.plus clsANDashCI)]

/-- `DRAWING[.\s#-]*([A-Z0-9-]+)` (IGNORECASE) -/
def patDrawing : Pat :=
  seqL [litCI "DRAWING", .star clsDotSpHD, .grp 1 (.plus clsANDashCI)]

/-- `NO\.[.\s]*([A-Z0-9-]+)` (IGNORECASE) -/
def patNo : Pat := seqL [litCI "NO.", .star clsDotSp, .grp 1 (.plus clsANDashCI)]

/-- `([A-Z]-\d+)` (IGNORECASE) -/
def patLetterDash : Pat :=
  .grp 1 (seqL [.cls isAlphaC, litS "-", .plus isDigitC])

/-- `SHEET[.\s#-]*([A-Z0-9-]+)` (IGNORECASE) -/
def patSheetId : Pat :=
  seqL [litCI "SHEET", .star clsDotSpHD, .grp 1 (.plus clsANDashCI)]

def extract_drawing_number (text : String) : Option String :=
  firstSearchGroup1 [patDwg, patDrawing, patNo, patLetterDash, patSheetId] text

/-- `TITLE[:\s]+([^\n]+)` (IGNORECASE | MULTILINE) -/
def patTitle : Pat := seqL [litCI "TITLE", .plus clsColSp, .grp 1 (.plus clsNotNL)]

/-- `^([A-Z\s]+DETAIL[S]?)` (IGNORECASE | MULTILINE) -/
def patDetail : Pat :=
  seqL [.bol true, .grp 1 (seqL [.plus clsAlphaSpCI, litCI "DETAIL", .opt (litCI "S")])]

/-- `^([A-Z\s]+PLAN)` (IGNORECASE | MULTILINE) -/
def patPlan : Pat :=
  seqL [.bol true, .grp 1 (seqL [.plus clsAlphaSpCI, litCI "PLAN"])]

/-- `^([A-Z\s]+DIAGRAM)` (IGNORECASE | MULTILINE) -/
def patDiagram : Pat :=
  seqL [.bol true, .grp 1 (seqL [.plus clsAlphaSpCI, litCI "DIAGRAM"])]

/-- `_extract_title`: ordered patterns (stripped group), then the
longest-ALL-CAPS-line fallback (first all-caps line longer than 10). -/
def extract_title (text : String) : Option String :=
  match firstSearchGroup1 [patTitle, patDetail, patPlan, patDiagram] text with
  | some v => some (pyStrip v)
  | none =>
    let lines := splitOnChar '\n' text
    let caps := lines.filter (fun l => pyIsUpper l && decide (10 < l.data.length))
    caps.head?

/-- date pattern 1: 1-2 digits, slash-or-dash, 1-2 digits, slash-or-dash, 2-4 digits, all in group 1 -/
def patDate1 : Pat :=
  .grp 1 (seqL [.rep isDigitC 1 2, .cls clsSlashDash, .rep isDigitC 1 2,
    .cls clsSlashDash, .rep isDigitC 2 4])

/-- date pattern 2: 4 digits, slash-or-dash, 1-2 digits, slash-or-dash, 1-2 digits, all in group 1 -/
def patDate2 : Pat :=
  .grp 1 (seqL [.rep isDigitC 4 4, .cls clsSlashDash, .rep isDigitC 1 2,
    .cls clsSlashDash, .rep isDigitC 1 2])

/-- `DATE[:\s]+([^\n]+)` (IGNORECASE) -/
def patDate3 : Pat := seqL [litCI "DATE", .plus clsColSp, .grp 1 (.plus clsNotNL)]

def extract_date (text : String) : Option String :=
  match firstSearchGroup1 [patDate1, patDate2, patDate3] text with
  | some v => some (pyStrip v)
  | none => none

/-- `SCALE[:\s]+([^\n,]+)` (IGNORECASE) -/
def patScale1 : Pat :=
  seqL [litCI "SCALE", .plus clsColSp, .grp 1 (.plus clsNotNLComma)]

/-- `(\d+:\d+)` -/
def patScale2 : Pat :=
  .grp 1 (seqL [.plus isDigitC, litS ":", .plus isDigitC])

/-- `(NTS|N\.T\.S\.)` (IGNORECASE) -/
def patScale3 : Pat := .grp 1 (.alt (litCI "NTS") (litCI "N.T.S."))

/-- `(1/\d+"?\s*=\s*\d+\'?-?\d*"?)` (IGNORECASE) -/
def patScale4 : Pat :=
  .grp 1 (seqL [litS "1/", .plus isDigitC, .opt (litS "\""), .star isSpaceC,
    litS "=", .star isSpaceC, .plus isDigitC, .opt (litS "\x27"),
    .opt (litS "-"), .star isDigitC, .opt (litS "\"")])

def extract_scale (text : String) : Option String :=
  match firstSearchGroup1 [patScale1, patScale2, patScale3, patScale4] text with
  | some v => some (pyStrip v)
  | none => none

/-- `REV[.:\s]+([A-Z0-9]+)` (IGNORECASE) -/
def patRev1 : Pat := seqL [litCI "REV", .plus clsDotColSp, .grp 1 (.plus clsANCI)]

/-- `REVISION[:\s]+([A-Z0-9]+)` (IGNORECASE) -/
def patRev2 : Pat := seqL [litCI "REVISION", .plus clsColSp, .grp 1 (.plus clsANCI)]

/-- `\bREV\s+([A-Z0-9])\b` (IGNORECASE) -/
def patRev3 : Pat :=
  seqL [.bnd, litCI "REV", .plus isSpaceC, .grp 1 (.cls clsANCI), .bnd]

def extract_revision (text : String) : Option String :=
  firstSearchGroup1 [patRev1, patRev2, patRev3] text

/-- `SHEET[:\s]+(\d+)\s+OF\s+(\d+)` (IGNORECASE) -/
def patSheet1 : Pat :=
  seqL [litCI "SHEET", .plus clsColSp, .grp 1 (.plus isDigitC), .plus isSpaceC,
    litCI "OF", .plus isSpaceC, .grp 2 (.plus isDigitC)]

/-- `(\d+)\s+OF\s+(\d+)` (IGNORECASE) -/
def patSheet2 : Pat :=
  seqL [.grp 1 (.plus isDigitC), .plus isSpaceC, litCI "OF", .plus isSpaceC,
    .grp 2 (.plus isDigitC)]

/-- `_extract_sheet`: first matching pattern rendered as `"{n} of {m}"`. -/
def extract_sheet (text : String) : Option String :=
  let try1 := fun (p : Pat) =>
    match search p text with
    | some (_, _, g) =>
      match groupStr text.data g 1, groupStr text.data g 2 with
      | some a, some b => some (a ++ " of " ++ b)
      | _, _ => none
    | none => none
  match try1 patSheet1 with
  | some v => some v
  | none => try1 patSheet2

end TitleBlockExtractor

/-- The title-block record returned by `TitleBlockExtractor.extract`. -/
structure TitleBlock where
  drawing_number : Option String
  drawing_title : Option String
  date : Option String
  scale : Option String
  revision : Option String
  sheet_number : Option String
deriving DecidableEq, Repr

/-- Left-preferring alternation of a pattern list. -/
def altL : List Pat → Pat
  | [] => .eps
  | [p] => p
  | p :: ps => .alt p (altL ps)

/-- Index of the first occurrence of `needle`, Python `str.find` (as
`Option`; the source only compares against -1). -/
def pyFindAux (needle : List Char) : List Char → Nat → Option Nat
  | [], i => if headMatches [] needle then some i else none
  | c :: r, i =>
    if headMatches (c :: r) needle then some i else pyFindAux needle r (i + 1)

def pyFind (hay needle : String) : Option Nat :=
  pyFindAux needle.data hay.data 0

/-- `_get_context`: a window of `window` characters on both sides of the
first occurrence of `term`, stripped; `""` when `term` does not occur
(shared by SpecificationExtractor and StandardsDetailParser). -/
def get_context (text term : String) (window : Nat) : String :=
  match pyFind text term with
  | none => ""
  | some idx =>
    let start := idx - window
    let stop := min text.data.length (idx + term.data.length + window)
    pyStrip (sliceStr text.data start stop)

/-- `TitleBlockExtractor.extract`: restrict to items with `bbox.top > 0.85`,
join their texts, resolve the six fields. -/
def titleBlockExtract (text_items : List TextItem) : TitleBlock :=
  let bottom_items := text_items.filter (fun it => Frac.blt ⟨85, 100, by decide⟩ it.bbox.top)
  let full_text := joinTexts bottom_items
  { drawing_number := TitleBlockExtractor.extract_drawing_number full_text
    drawing_title := TitleBlockExtractor.extract_title full_text
    date := TitleBlockExtractor.extract_date full_text
    scale := TitleBlockExtractor.extract_scale full_text
    revision := TitleBlockExtractor.extract_revision full_text
    sheet_number := TitleBlockExtractor.extract_sheet full_text }

/-! ### SpecificationExtractor (src/extractors/SpecificationExtractor.py) -/

/-- A specification record; `unit` is `none` for the record shapes (material,
standard) that carry no `unit` key in the source. -/
structure SpecRecord where
  rtype : String
  value : String
  unit : Option String
  context : String
deriving DecidableEq, Repr

/-- class `[.\d]` -/
def clsDotDigit (c : Char) : Bool := c == '.' || isDigitC c

/-- class of dash-or-whitespace -/
def clsDashSp (c : Char) : Bool := c == '-' || isSpaceC c

namespace SpecificationExtractor

/-- measurement pattern: group 1 = digits with optional fraction part,
optional whitespace, group 2 = one of the unit alternatives
(ft, feet, in, inch, inches, mm, cm, m, double quote, apostrophe, min,
max, minimum, maximum), IGNORECASE. -/
def patMeas : Pat :=
  seqL [.grp 1 (seqL [.plus isDigitC, .opt (litS "."), .star isDigitC]),
    .star isSpaceC,
    .grp 2 (altL [litCI "ft", litCI "feet", litCI "in", litCI "inch",
      litCI "inches", litCI "mm", litCI "cm", litCI "m", litS "\"",
      litS "\x27", litCI "min", litCI "max", litCI "minimum", litCI "maximum"])]

/-- material pattern: word boundary, group 1 = one of the material
abbreviations (316 takes an optional L), word boundary; no flags. -/
def patMat : Pat :=
  seqL [.bnd,
    .grp 1 (altL [litS "PVC", litS "SS", litS "DI", litS "HDPE", litS "PE",
      litS "FG", seqL [litS "316", .opt (litS "L")], litS "STEEL",
      litS "IRON", litS "ALUMINUM", litS "BRASS", litS "COPPER"]),
    .bnd]

/-- standards pattern: group 1 = standards body, optional whitespace,
optional letter, optional dash-or-space, digits, then dot-or-digit run;
IGNORECASE. -/
def patStd : Pat :=
  seqL [.grp 1 (altL [litCI "ASTM", litCI "ANSI", litCI "API", litCI "ASME",
      litCI "AWS", litCI "IEEE", litCI "NFPA", litCI "IBC", litCI "UBC",
      litCI "ACI", litCI "PVC", litCI "AWWA"]),
    .star isSpaceC, .opt (.cls isAlphaC), .opt (.cls clsDashSp),
    .plus isDigitC, .star clsDotDigit]

end SpecificationExtractor

/-- A set-iteration order: how Python enumerates `set(materials)`.  The
language fixes only that the enumeration is duplicate-free and covers
exactly the distinct elements; the actual order depends on the
per-process string hash seed. -/
def ValidSetOrder (f : List String → List String) : Prop :=
  ∀ xs : List String, (f xs).Nodup ∧ ∀ a, a ∈ f xs ↔ a ∈ xs

/-- `SpecificationExtractor.extract`, parameterized by the interpreter's
set-iteration order used at `for material in set(materials)`. -/
def specificationExtract (setOrder : List String → List String)
    (text_items : List TextItem) : List SpecRecord :=
  let full_text := joinTexts text_items
  let measurements := findallG2 SpecificationExtractor.patMeas full_text
  let meas := measurements.map (fun vu =>
    { rtype := "measurement", value := vu.1, unit := some vu.2,
      context := get_context full_text (vu.1 ++ " " ++ vu.2) 50 })
  let materials := findallG1 SpecificationExtractor.patMat full_text
  let mats := (setOrder materials).map (fun m =>
    { rtype := "material", value := m, unit := none,
      context := get_context full_text m 50 })
  let standards := findallG1 SpecificationExtractor.patStd full_text
  let stds := standards.map (fun s =>
    { rtype := "standard", value := s, unit := none,
      context := get_context full_text s 50 })
  meas ++ mats ++ stds

/-! ### NotesExtractor (src/extractors/NotesExtractor.py) -/

/-- A note record; `number` is `none` for the record shapes that carry no
`number` key in the source. -/
structure Note where
  ntype : String
  number : Option String
  content : String
deriving DecidableEq, Repr

/-- class of any character but an opening parenthesis -/
def clsNotOpenParen (c : Char) : Bool := !(c == '(')

/-- class `[:\s-]` -/
def clsColSpDash (c : Char) : Bool := c == ':' || isSpaceC c || c == '-'

namespace NotesExtractor

/-- numbered-note pattern: literal open paren, group 1 = digits, close
paren, whitespace, group 2 = lazy run of non-paren characters, stopped by
a lookahead for the next numbered marker or end of string; DOTALL (which
is inert here: the pattern has no dot). -/
def patNumbered : Pat :=
  seqL [litS "(", .grp 1 (.plus isDigitC), litS ")", .plus isSpaceC,
    .grp 2 (.lazyPlus clsNotOpenParen),
    .look (.alt (seqL [litS "(", .plus isDigitC, litS ")"]) (.eol false)) false]

/-- note-block pattern: NOTE with optional S, colon-or-space run, group 1 =
rest of line plus following lines not beginning with NOTE;
IGNORECASE | MULTILINE. -/
def patNoteBlock : Pat :=
  seqL [litCI "NOTE", .opt (litCI "S"), .plus clsColSp,
    .grp 1 (seqL [.plus clsNotNL,
      .starP (seqL [litS "\n", .look (litCI "NOTE") true, .plus clsNotNL])])]

/-- disclaimer pattern: DISCLAIMER, colon-space-dash run, group 1 = rest of
line plus following lines; IGNORECASE. -/
def patDisclaimer : Pat :=
  seqL [litCI "DISCLAIMER", .plus clsColSpDash,
    .grp 1 (seqL [.plus clsNotNL, .starP (seqL [litS "\n", .plus clsNotNL])])]

end NotesExtractor

/-- `NotesExtractor.extract`: the three passes (numbered, NOTE blocks,
disclaimer) concatenated in source order. -/
def notesExtract (text_items : List TextItem) : List Note :=
  let full_text := joinTexts text_items
  let numbered := (findallG2 NotesExtractor.patNumbered full_text).map (fun nc =>
    { ntype := "numbered", number := some nc.1, content := pyStrip nc.2 })
  let blocks := (findallG1 NotesExtractor.patNoteBlock full_text).map (fun c =>
    { ntype := "general", number := none, content := pyStrip c })
  let disclaimer :=
    if containsSub (pyUpper full_text) "DISCLAIMER" then
      match searchGroup1 NotesExtractor.patDisclaimer full_text with
      | some c => [{ ntype := "disclaimer", number := none, content := pyStrip c }]
      | none => []
    else []
  numbered ++ blocks ++ disclaimer

/-! ### ReferenceExtractor (src/extractors/ReferenceExtractor.py) -/

/-- A reference record; optional fields are the keys absent in some of the
three record shapes of the source. -/
structure Reference where
  rtype : String
  reference_type : Option String
  reference_id : Option String
  regulation_type : Option String
  code : Option String
  description : Option String
deriving DecidableEq, Repr

namespace ReferenceExtractor

/-- SEE-reference pattern: SEE, whitespace, group 1 = DRAWING, DWG, SHEET
or DETAIL, whitespace, group 2 = id; IGNORECASE. -/
def patSee : Pat :=
  seqL [litCI "SEE", .plus isSpaceC,
    .grp 1 (altL [litCI "DRAWING", litCI "DWG", litCI "SHEET", litCI "DETAIL"]),
    .plus isSpaceC, .grp 2 (.plus clsANDashCI)]

/-- F.A.C. pattern: group 1 = F.A.C. or FAC, whitespace, optional group 2 =
RULE and whitespace, group 3 = digits, dash, dot-or-digit run; IGNORECASE. -/
def patFac : Pat :=
  seqL [.grp 1 (.alt (litCI "F.A.C.") (litCI "FAC")), .plus isSpaceC,
    .opt (.grp 2 (seqL [litCI "RULE", .plus isSpaceC])),
    .grp 3 (seqL [.plus isDigitC, litS "-", .plus clsDotDigit])]

/-- accordance pattern: IN ACCORDANCE WITH, whitespace, group 1 = run of
characters that are neither newline nor period; IGNORECASE. -/
def patAccordance : Pat :=
  seqL [litCI "IN ACCORDANCE WITH", .plus isSpaceC, .grp 1 (.plus clsNotNLDot)]

end ReferenceExtractor

/-- `ReferenceExtractor.extract`: the three passes concatenated in source
order. -/
def referenceExtract (text_items : List TextItem) : List Reference :=
  let full_text := joinTexts text_items
  let drawing_refs := (findallG2 ReferenceExtractor.patSee full_text).map (fun p =>
    { rtype := "drawing_reference", reference_type := some p.1,
      reference_id := some p.2, regulation_type := none, code := none,
      description := none })
  let code_refs := (findallG3 ReferenceExtractor.patFac full_text).map (fun t =>
    { rtype := "regulation", reference_type := none, reference_id := none,
      regulation_type := some "Florida Administrative Code",
      code := some t.2.2, description := none })
  let accordance := (findallG1 ReferenceExtractor.patAccordance full_text).map (fun r =>
    { rtype := "standard_reference", reference_type := none,
      reference_id := none, regulation_type := none, code := none,
      description := some (pyStrip r) })
  drawing_refs ++ code_refs ++ accordance

/-! ### TableExtractor (src/extractors/TableExtractor.py) -/

/-- The structured table record of `_format_table`. -/
structure Table where
  headers : List String
  rows : List (List String)
  row_count : Nat
  column_count : Nat
deriving DecidableEq, Repr

/-- Stable insertion keeping existing elements with keys less than or equal
to the new key in front (so the overall sort reproduces Python's stable
`sorted`). -/
def insertSorted (key : TextItem → Frac) (x : TextItem) : List TextItem → List TextItem
  | [] => [x]
  | y :: ys => if Frac.ble (key y) (key x) then y :: insertSorted key x ys else x :: y :: ys

/-- Python `sorted(items, key=...)` (stable). -/
def pySortedBy (key : TextItem → Frac) (l : List TextItem) : List TextItem :=
  l.foldl (fun acc x => insertSorted key x acc) []

namespace TableExtractor

/-- The accumulation loop of `_cluster_by_rows` after sorting: items whose
`top` differs from the current row anchor by less than the tolerance join
the current row, otherwise a new row (and anchor) starts.  The source
computes `abs(item_top - current_y) < tolerance` in binary64: the
subtraction rounds (modelled by `f64sub`), while `abs` and the comparison
of doubles are exact on their values.  The rounding is outcome-relevant
here — for the double literals 0.10 and 0.12 the rounded difference is
strictly below the double 0.02, so those rows merge. -/
def clusterAux (tol : Frac) : List TextItem → List TextItem → Frac → List (List TextItem)
  | [], cur, _ => [cur.reverse]
  | it :: rest, cur, curY =>
    if Frac.blt (Frac.absF (f64sub it.bbox.top curY)) tol then
      clusterAux tol rest (it :: cur) curY
    else cur.reverse :: clusterAux tol rest [it] it.bbox.top

/-- `_cluster_by_rows` with its default tolerance 0.02. -/
def cluster_by_rows (tol : Frac) (items : List TextItem) : List (List TextItem) :=
  match pySortedBy (fun it => it.bbox.top) items with
  | [] => []
  | first :: rest => clusterAux tol rest [first] first.bbox.top

/-- `_cluster_by_columns`: sort a row by `left`, return the texts. -/
def cluster_by_columns (items : List TextItem) : List String :=
  (pySortedBy (fun it => it.bbox.left) items).map (fun it => it.text)

/-- `_format_table`.  The source's empty-input branch (returning an empty
dict) is unreachable: both call sites guard on at least 2 accumulated
rows. -/
def format_table (table_data : List (List String)) : Table :=
  let headers := table_data.head?.getD []
  let rows := table_data.drop 1
  { headers := headers, rows := rows, row_count := rows.length,
    column_count := headers.length }

/-- The row-accumulation loop of `extract`: rows with at least 2 columns
accumulate into a candidate, any other row terminates it, and candidates
with at least 2 rows are emitted (including a trailing candidate). -/
def tableLoop : List (List TextItem) → List (List String) → List Table
  | [], current_table =>
    if 2 ≤ current_table.length then [format_table current_table] else []
  | r :: rest, current_table =>
    let columns := cluster_by_columns r
    if 2 ≤ columns.length then tableLoop rest (current_table ++ [columns])
    else if 2 ≤ current_table.length then
      format_table current_table :: tableLoop rest []
    else tableLoop rest []

end TableExtractor

/-- The binary64 value of the source's default tolerance literal `0.02`:
5764607523034235 / 2 ^ 58 (slightly above 1/50). -/
def f64_0_02 : Frac := ⟨5764607523034235, 288230376151711744, by decide⟩

/-- `TableExtractor.extract` (with the default tolerance, the double
0.02). -/
def tableExtract (text_items : List TextItem) : List Table :=
  TableExtractor.tableLoop (TableExtractor.cluster_by_rows f64_0_02 text_items) []

/-! ### Drawing classification (src/DocTypeDetection.py) -/

inductive DrawingType where
  | PUMP_STATION | STANDARDS_DETAIL | PIPING_DIAGRAM | FLOOR_PLAN
  | SITE_PLAN | SPECIFICATION_TABLE | UNKNOWN
deriving DecidableEq, Repr, BEq

inductive DrawingDiscipline where
  | MECHANICAL | CIVIL | ELECTRICAL | STRUCTURAL | PLUMBING | UNKNOWN
deriving DecidableEq, Repr, BEq

/-- The `.value` strings of the `DrawingType` enum. -/
def DrawingType.value : DrawingType → String
  | .PUMP_STATION => "pump_station"
  | .STANDARDS_DETAIL => "standards_detail"
  | .PIPING_DIAGRAM => "piping_diagram"
  | .FLOOR_PLAN => "floor_plan"
  | .SITE_PLAN => "site_plan"
  | .SPECIFICATION_TABLE => "specification_table"
  | .UNKNOWN => "unknown"

/-- The `.value` strings of the `DrawingDiscipline` enum. -/
def DrawingDiscipline.value : DrawingDiscipline → String
  | .MECHANICAL => "mechanical"
  | .CIVIL => "civil"
  | .ELECTRICAL => "electrical"
  | .STRUCTURAL => "structural"
  | .PLUMBING => "plumbing"
  | .UNKNOWN => "unknown"

structure DrawingClassification where
  drawing_type : DrawingType
  discipline : DrawingDiscipline
  has_table : Bool
  has_notes : Bool
  has_legend : Bool
  has_specifications : Bool
  confidence : Frac
deriving DecidableEq, Repr

/-- The classifier's drawing-type keyword table, in declaration order. -/
def typeKeywords : List (DrawingType × List String) :=
  [(.PUMP_STATION, ["PUMP STATION", "PUMP", "WETWELL", "GPM", "TDH"]),
   (.STANDARDS_DETAIL, ["STANDARD DETAIL", "ACCORDANCE WITH", "MINIMUM", "SEPARATION"]),
   (.PIPING_DIAGRAM, ["P&ID", "PIPING", "VALVE", "FLOW"]),
   (.FLOOR_PLAN, ["FLOOR PLAN", "ROOM", "ELEVATION", "LEVEL"]),
   (.SITE_PLAN, ["SITE PLAN", "PROPERTY LINE", "LOT", "SETBACK"]),
   (.SPECIFICATION_TABLE, ["SPECIFICATION", "REQUIREMENT", "TABLE"])]

/-- The classifier's discipline keyword table, in declaration order. -/
def disciplineKeywords : List (DrawingDiscipline × List String) :=
  [(.MECHANICAL, ["MECHANICAL", "HVAC", "PUMP", "VALVE", "GPM"]),
   (.CIVIL, ["CIVIL", "SEWER", "STORM", "WATER MAIN", "UTILITY"]),
   (.ELECTRICAL, ["ELECTRICAL", "PANEL", "CIRCUIT", "VOLTAGE"]),
   (.STRUCTURAL, ["STRUCTURAL", "BEAM", "COLUMN", "FOUNDATION"]),
   (.PLUMBING, ["PLUMBING", "SANITARY", "WASTE", "FIXTURE"])]

/-- `sum(1 for kw in kws if kw in text_upper)`. -/
def keywordScore (text_upper : String) (kws : List String) : Nat :=
  kws.countP (fun kw => containsSub text_upper kw)

/-- Python `max(scores, key=scores.get)` over an insertion-ordered dict:
the first entry with the maximal score (later entries replace only on a
strictly greater score). -/
def argmaxFirst {α : Type} (l : List (α × Nat)) : Option (α × Nat) :=
  l.foldl (fun acc p =>
    match acc with
    | none => some p
    | some q => if q.2 < p.2 then some p else some q) none

/-- Round to the nearest integer, ties to even (the behaviour of Python
`round` on exactly representable halves; the `bbox.left` values appearing
in concrete theorems are exact in both models). -/
def roundHalfEven (x : Frac) : Int :=
  let f := x.num.fdiv x.den
  let r := Frac.sub x (Frac.ofInt f)
  if Frac.blt r ⟨1, 2, by decide⟩ then f
  else if Frac.blt ⟨1, 2, by decide⟩ r then f + 1
  else if f % 2 = 0 then f else f + 1

/-- Python `round(x, 1)`. -/
def round1 (x : Frac) : Frac :=
  ⟨roundHalfEven (Frac.mul x (Frac.ofInt 10)), 10, by decide⟩

/-- `detect_table_structure`: more than 3 items sharing an x-coordinate
rounded to one decimal. -/
def detect_table_structure (text_items : List TextItem) : Bool :=
  let x_rounded := text_items.map (fun it => round1 it.bbox.left)
  x_rounded.any (fun v => 3 < x_rounded.count v)

/-- search pattern `SPEC|SPECIFICATION|REQUIREMENT` (no flags; applied to
the upper-cased text). -/
def patSpecSearch : Pat :=
  altL [litS "SPEC", litS "SPECIFICATION", litS "REQUIREMENT"]

/-- `classify_drawing`.  The final confidence is
`type_scores[detected_type] / 10`; when every type scores zero the
detected type has been replaced by `UNKNOWN`, which is not a key of
`type_scores`, so the lookup raises `KeyError`. -/
def classify_drawing (ocr_text : String) (text_items : List TextItem) :
    Except PyErr DrawingClassification :=
  let text_upper := pyUpper ocr_text
  let type_scores := typeKeywords.map (fun p => (p.1, keywordScore text_upper p.2))
  match argmaxFirst type_scores with
  | none => .error .keyError
  | some (dt0, s0) =>
    let detected_type := if s0 = 0 then DrawingType.UNKNOWN else dt0
    let disc_scores :=
      disciplineKeywords.map (fun p => (p.1, keywordScore text_upper p.2))
    let detected_disc :=
      match argmaxFirst disc_scores with
      | none => DrawingDiscipline.UNKNOWN
      | some (dc0, t0) => if t0 = 0 then DrawingDiscipline.UNKNOWN else dc0
    let has_table := containsSub text_upper "TABLE" || detect_table_structure text_items
    let has_notes := containsSub text_upper "NOTE" || containsSub text_upper "NOTES:"
    let has_legend := containsSub text_upper "LEGEND" || containsSub text_upper "KEY:"
    let has_specifications := (search patSpecSearch text_upper).isSome
    match type_scores.find? (fun p => p.1 == detected_type) with
    | some p =>
      Except.ok
        { drawing_type := detected_type, discipline := detected_disc,
          has_table := has_table, has_notes := has_notes,
          has_legend := has_legend, has_specifications := has_specifications,
          confidence := ⟨(p.2 : Int), 10, by decide⟩ }
    | none => .error .keyError

/-! ### Basic zone segmentation (src/DrawingParser.py, _identify_basic_zones) -/

structure BasicZones where
  top : List TextItem
  middle : List TextItem
  bottom : List TextItem
deriving DecidableEq, Repr

/-- `_identify_basic_zones`: `page_height` is the maximum of
`top + height` over all items (ValueError on an empty list), then items
are filtered into top / middle / bottom by 15 and 85 percent of it. -/
def identify_basic_zones (text_items : List TextItem) :
    Except PyErr BasicZones := do
  let page_height ←
    pyMax (text_items.map (fun it => Frac.add it.bbox.top it.bbox.height))
  .ok { top := text_items.filter
          (fun it => Frac.blt it.bbox.top (Frac.mul page_height ⟨15, 100, by decide⟩)),
        middle := text_items.filter (fun it =>
          Frac.ble (Frac.mul page_height ⟨15, 100, by decide⟩) it.bbox.top &&
          Frac.ble it.bbox.top (Frac.mul page_height ⟨85, 100, by decide⟩)),
        bottom := text_items.filter
          (fun it => Frac.blt (Frac.mul page_height ⟨85, 100, by decide⟩) it.bbox.top) }

/-! ### PumpStationParser (src/parsers/PumpStationParser.py) -/

structure PumpZones where
  key_section : List TextItem
  pump_data_box : List TextItem
  elevation_labels : List TextItem
  title_block : List TextItem
  general : List TextItem
deriving DecidableEq, Repr

namespace PumpStationParser

/-- anchored pattern of a numbered key line: digits, a period, whitespace
(the source checks it with `re.match`, so it is anchored at position 0). -/
def patKeyNum : Pat := seqL [.plus isDigitC, litS ".", .plus isSpaceC]

def pumpDataKeywords : List String :=
  ["PUMP", "GPM", "HP", "TDH", "VOLTS", "AMPS", "RPM",
   "MODEL", "SERIAL", "DESIGN", "STATIC HEAD"]

def elevationKeywords : List String :=
  ["ALARM", "LAG", "LEAD", "OVERRIDE", "BOTTOM", "TOP", "INVERT", "LWL"]

/-- One iteration of the `_identify_zones` classification chain, appending
the item to exactly one zone list. -/
def assignZone (max_x max_y : Frac) (z : PumpZones) (item : TextItem) : PumpZones :=
  let text := pyStrip item.text
  let up := pyUpper text
  if (matchStart patKeyNum text).isSome || text == "KEY:" then
    { z with key_section := z.key_section ++ [item] }
  else if Frac.blt (Frac.mul max_x ⟨65, 100, by decide⟩) item.bbox.left then
    if pumpDataKeywords.any (fun kw => containsSub up kw) then
      { z with pump_data_box := z.pump_data_box ++ [item] }
    else
      { z with general := z.general ++ [item] }
  else if containsSub up "EL" || containsSub up "ELEVATION" then
    if elevationKeywords.any (fun kw => containsSub up kw) then
      { z with elevation_labels := z.elevation_labels ++ [item] }
    else
      { z with general := z.general ++ [item] }
  else if Frac.blt (Frac.mul max_y ⟨85, 100, by decide⟩) item.bbox.top then
    { z with title_block := z.title_block ++ [item] }
  else
    { z with general := z.general ++ [item] }

/-- `_identify_zones`: page dimensions from maxima over the items
(ValueError on an empty list), then the per-item chain. -/
def identify_zones (text_items : List TextItem) : Except PyErr PumpZones := do
  let max_x ← pyMax (text_items.map (fun it => Frac.add it.bbox.left it.bbox.width))
  let max_y ← pyMax (text_items.map (fun it => Frac.add it.bbox.top it.bbox.height))
  .ok (text_items.foldl (assignZone max_x max_y)
    { key_section := [], pump_data_box := [], elevation_labels := [],
      title_block := [], general := [] })

/-- class `[.:\s]` extended with a slash (the source writes it with a
trailing slash) -/
def clsDotColSpSlash (c : Char) : Bool :=
  c == '.' || c == ':' || isSpaceC c || c == '/'

/-- class of digits and periods -/
def clsDigitDot (c : Char) : Bool := isDigitC c || c == '.'

/-- class of dash and space (the literal two-character class in SHUT-OFF) -/
def clsDashSpace (c : Char) : Bool := c == '-' || c == ' '

/-- class of apostrophe and double quote -/
def clsQuotes (c : Char) : Bool := c == '\x27' || c == '"'

/-- group 1 of most numeric fields: digits, optional period, digits. -/
def grpNum : Pat := .grp 1 (seqL [.plus isDigitC, .opt (litS "."), .star isDigitC])

/-- group 1 of the integer fields: digits only. -/
def grpInt : Pat := .grp 1 (.plus isDigitC)

/-- model patterns: PUMP MODEL (or MODEL), colon-space run, lazy group of
letters, digits, whitespace and dashes, ended by newline or end. -/
def patsModel : List Pat :=
  [seqL [litCI "PUMP MODEL", .plus clsColSp, .grp 1 (.lazyPlus (fun c =>
      isAlphaC c || isDigitC c || isSpaceC c || c == '-')),
    .alt (litS "\n") (.eol true)],
   seqL [litCI "MODEL", .plus clsColSp, .grp 1 (.lazyPlus (fun c =>
      isAlphaC c || isDigitC c || isSpaceC c || c == '-')),
    .alt (litS "\n") (.eol true)]]

def patsSerial : List Pat :=
  [seqL [litCI "PUMP SERIAL NO", .plus clsDotColSp, .grp 1 (.plus clsANDashCI)],
   seqL [litCI "SERIAL NO", .plus clsDotColSp, .grp 1 (.plus clsANDashCI)]]

def patsCapacity : List Pat :=
  [seqL [litCI "DESIGN CAPACITY", .plus clsColSp, grpInt, .star isSpaceC, litCI "GPM"],
   seqL [litCI "PUMP DESIGN POINT", .plus clsColSp, grpInt, .star isSpaceC, litCI "GPM"],
   seqL [grpInt, .star isSpaceC, litCI "GPM", .star isSpaceC, litS "@"]]

def patsTdh : List Pat :=
  [seqL [grpInt, .star isSpaceC, litCI "TDH"],
   seqL [litS "@", .star isSpaceC, grpInt, .star isSpaceC, litCI "TDH"],
   seqL [litCI "GPM", .star isSpaceC, litS "@", .star isSpaceC, grpInt]]

/-- horsepower pattern 1: PUMP H, optional period, P, optional period,
colon-space run, numeric group. -/
def patHp1 : Pat :=
  seqL [litCI "PUMP H", .opt (litS "."), litCI "P", .opt (litS "."),
    .plus clsColSp, grpNum]

/-- horsepower pattern 2: numeric group, optional whitespace, HP (also the
pattern of the disambiguation re-search). -/
def patHp2 : Pat := seqL [grpNum, .star isSpaceC, litCI "HP"]

/-- horsepower pattern 3: numeric group, optional whitespace, PHASE. -/
def patHp3 : Pat := seqL [grpNum, .star isSpaceC, litCI "PHASE"]

def patsHorsepower : List Pat := [patHp1, patHp2, patHp3]

def patsPhase : List Pat :=
  [seqL [grpInt, .star isSpaceC, litCI "PHASE"],
   seqL [litCI "PHASE", .plus clsColSp, grpInt]]

def patsImpellerNumber : List Pat :=
  [seqL [litCI "PUMP IMP", .opt (litS "."), litCI " NO", .plus clsDotColSpSlash,
    .grp 1 (.plus clsANDashCI)],
   seqL [litCI "IMP", .opt (litS "."), .star isSpaceC, litCI "NO",
    .plus clsDotColSp, .grp 1 (.plus clsANDashCI)]]

def patsImpellerDiameter : List Pat :=
  [seqL [litCI "IMP", .opt (litS "."), .plus clsDotColSpSlash,
    .grp 1 (.plus clsDigitDot), .star isSpaceC, .alt (litCI "DIA") (litS "\"")],
   seqL [litCI "DIA", .plus clsDotColSp, .grp 1 (.plus clsDigitDot)]]

def patsVoltage : List Pat :=
  [seqL [litCI "PUMP VOLTS", .plus clsColSp, grpInt],
   seqL [grpInt, .star isSpaceC, litCI "VOLTS"],
   seqL [grpInt, litCI "V"]]

def patsAmperage : List Pat :=
  [seqL [grpNum, .star isSpaceC, litCI "AMPS"],
   seqL [litCI "AMPS", .plus clsColSp, grpNum]]

def patsShutOffHead : List Pat :=
  [seqL [litCI "SHUT", .cls clsDashSpace, litCI "OFF HEAD", .plus clsColSp, grpInt],
   seqL [litCI "SHUT", .cls clsDashSpace, litCI "OFF", .plus clsColSp, grpInt,
    .star isSpaceC, litCI "FT"]]

def patsSpeedRpm : List Pat :=
  [seqL [litCI "PUMP SPEED", .plus clsColSp, grpInt, .star isSpaceC, litCI "RPM"],
   seqL [grpInt, .star isSpaceC, litCI "RPM"]]

def patsStaticHead : List Pat :=
  [seqL [litCI "STATIC HEAD", .plus clsColSp, grpInt],
   seqL [litCI "STATIC", .plus clsColSp, grpInt, .star isSpaceC, litCI "FT"]]

def patsWetwellVolume : List Pat :=
  [seqL [litCI "WET WELL VOLUME", .plus clsColSp, grpInt, .star isSpaceC,
    litCI "GALLONS"],
   seqL [litCI "VOLUME", .plus clsColSp, grpInt, .star isSpaceC, litCI "GAL"]]

def patsWetwellDiameter : List Pat :=
  [seqL [grpInt, .star isSpaceC, litCI "FT", .opt (litS "."), .star isSpaceC,
    litCI "DIA"],
   seqL [grpInt, .opt (.cls clsQuotes), .star isSpaceC, litCI "DIA",
    .opt (litS "."), .star isSpaceC, litCI "WETWELL"],
   seqL [litCI "DIA", .opt (litS "."), .star isSpaceC, litCI "WETWELL",
    .plus clsColSp, grpInt]]

/-- The source's inner pattern loop for one field: the first pattern whose
match has a non-empty stripped `group(1)` supplies the value; a pattern
that matches with an empty or all-space value does not break the loop. -/
def firstFieldValue : List Pat → String → Option String
  | [], _ => none
  | p :: ps, t =>
    match searchGroup1 p t with
    | some v =>
      let v' := pyStrip v
      if v' ≠ "" then some v' else firstFieldValue ps t
    | none => firstFieldValue ps t

end PumpStationParser

/-- The pump nameplate record of `_extract_pump_data` (15 fields). -/
structure PumpData where
  model : Option String
  serial_number : Option String
  design_capacity_gpm : Option String
  design_tdh : Option String
  horsepower : Option String
  phase : Option String
  impeller_number : Option String
  impeller_diameter : Option String
  voltage : Option String
  amperage : Option String
  shut_off_head : Option String
  speed_rpm : Option String
  static_head : Option String
  wetwell_volume_gallons : Option String
  wetwell_diameter : Option String
deriving DecidableEq, Repr

/-- The pattern-matching body of `_extract_pump_data` over the combined
zone text, including the horsepower/phase disambiguation: when both were
extracted and are equal, a re-search for an HP-suffixed number (unstripped
`group(1)`, as in the source) replaces the horsepower. -/
def extract_pump_data_text (full_text : String) : PumpData :=
  open PumpStationParser in
  let horsepower0 := firstFieldValue patsHorsepower full_text
  let phase := firstFieldValue patsPhase full_text
  let horsepower :=
    match horsepower0, phase with
    | some h, some p =>
      if h = p then
        match searchGroup1 patHp2 full_text with
        | some v => some v
        | none => some h
      else some h
    | _, _ => horsepower0
  { model := firstFieldValue patsModel full_text
    serial_number := firstFieldValue patsSerial full_text
    design_capacity_gpm := firstFieldValue patsCapacity full_text
    design_tdh := firstFieldValue patsTdh full_text
    horsepower := horsepower
    phase := phase
    impeller_number := firstFieldValue patsImpellerNumber full_text
    impeller_diameter := firstFieldValue patsImpellerDiameter full_text
    voltage := firstFieldValue patsVoltage full_text
    amperage := firstFieldValue patsAmperage full_text
    shut_off_head := firstFieldValue patsShutOffHead full_text
    speed_rpm := firstFieldValue patsSpeedRpm full_text
    static_head := firstFieldValue patsStaticHead full_text
    wetwell_volume_gallons := firstFieldValue patsWetwellVolume full_text
    wetwell_diameter := firstFieldValue patsWetwellDiameter full_text }

/-- `_extract_pump_data`: the pump-data-box zone text, or all items as a
fallback when that zone is empty. -/
def extract_pump_data (text_items : List TextItem) (zones : PumpZones) : PumpData :=
  let pump_text_items :=
    if zones.pump_data_box.isEmpty then text_items else zones.pump_data_box
  extract_pump_data_text (joinTexts pump_text_items)

/-! ### StandardsDetailParser (src/parsers/StandarDetailsParser.py) -/

structure StdZones where
  title : List TextItem
  table_area : List TextItem
  notes_area : List TextItem
  diagram_area : List TextItem
deriving DecidableEq, Repr

namespace StandardsDetailParser

/-- anchored pattern of a parenthesized number (checked with `re.match`). -/
def patParenNum : Pat := seqL [litS "(", .plus isDigitC, litS ")"]

/-- One iteration of `_identify_zones`: bottom area to `title`, items
containing "minimum" or "ft" (lower-cased) to `table_area`, items starting
with a parenthesized number to `notes_area`, the rest to `diagram_area`. -/
def assignZone (z : StdZones) (item : TextItem) : StdZones :=
  if Frac.blt ⟨85, 100, by decide⟩ item.bbox.top then
    { z with title := z.title ++ [item] }
  else if containsSub (pyLower item.text) "minimum"
      || containsSub (pyLower item.text) "ft" then
    { z with table_area := z.table_area ++ [item] }
  else if (matchStart patParenNum item.text).isSome then
    { z with notes_area := z.notes_area ++ [item] }
  else
    { z with diagram_area := z.diagram_area ++ [item] }

/-- `_identify_zones` (total: no page-dimension maximum is taken). -/
def identify_zones (text_items : List TextItem) : StdZones :=
  text_items.foldl assignZone
    { title := [], table_area := [], notes_area := [], diagram_area := [] }

end StandardsDetailParser

/-! ### DrawingValidator (src/DrawingValidator.py) -/

/-- `ValidationResult`: errors, warnings and the validity flag. -/
structure ValidationResult where
  errors : List String
  warnings : List String
  is_valid : Bool
deriving DecidableEq, Repr

/-- The fresh `ValidationResult()` of the constructor. -/
def ValidationResult.init : ValidationResult :=
  { errors := [], warnings := [], is_valid := true }

/-- `add_error`: append the message and clear the validity flag. -/
def add_error (r : ValidationResult) (message : String) : ValidationResult :=
  { r with errors := r.errors ++ [message], is_valid := false }

/-- `add_warning`: append the message (the flag is untouched). -/
def add_warning (r : ValidationResult) (message : String) : ValidationResult :=
  { r with warnings := r.warnings ++ [message] }

/-- Python parse acceptance of `float(s)`: stripped, optional sign, then
either a decimal number (digits with optional fraction, or fraction only)
with an optional exponent, or inf / infinity / nan, case-insensitively.
(Python additionally accepts underscore digit grouping, which cannot occur
here: the validator only applies this to measurement values, which the
extractor produces from a digits-and-period capture group.) -/
def pyFloatParses (s : String) : Bool :=
  let t := (pyStrip s).data.map pyLowerChar
  let core := match t with
    | '+' :: r => r
    | '-' :: r => r
    | r => r
  let expOk : List Char → Bool := fun e =>
    match e with
    | [] => true
    | 'e' :: r =>
      let r' := match r with
        | '+' :: r2 => r2
        | '-' :: r2 => r2
        | r2 => r2
      !r'.isEmpty && r'.all (fun c => isDigitC c)
    | _ => false
  let mantissa := core.takeWhile (fun c => isDigitC c || c == '.')
  let rest := core.drop mantissa.length
  let digits := mantissa.filter (fun c => isDigitC c)
  let dots := mantissa.filter (fun c => c == '.')
  (core == "inf".data || core == "infinity".data || core == "nan".data)
    || (!digits.isEmpty && dots.length ≤ 1 && expOk rest)

/-- The validator's view of a parse result.

`titleblock` is two-level to mirror the dict it reads:
`none` = the `titleblock` key is absent from `universal_data`;
`some none` = the key holds Python `None` (the pipeline stores `None` when
the title-block extractor raised); `some (some tb)` = the extractor's
record.  `specification` is the list under the `specification` key
(`.get('specification', [])` defaults an absent key to the empty list). -/
structure ExtractedDataV where
  titleblock : Option (Option TitleBlock)
  specification : List SpecRecord
deriving DecidableEq, Repr

/-- Python truthiness of the `titleblock` value: an absent key or `None`
is falsy; the extractor's record is a 6-key dict, which is truthy (a
non-empty dict) even when every field is null. -/
def titleblockTruthy : Option (Option TitleBlock) → Bool
  | none => false
  | some none => false
  | some (some _) => true

/-- Python truthiness of an optional string field (`None` and `""` falsy). -/
def optStrTruthy : Option String → Bool
  | none => false
  | some s => s ≠ ""

/-- The body of the measurement loop of `validate`: a `measurement` record
whose value does not parse as a float adds an error. -/
def measCheck (r : ValidationResult) (spec : SpecRecord) : ValidationResult :=
  if spec.rtype == "measurement" then
    if pyFloatParses spec.value then r
    else add_error r ("Invalid measurement value: " ++ spec.value)
  else r

/-- `DrawingValidator.validate`.  Mirrors the four checks in source order;
`title_block.get(...)` on a present-but-`None` titleblock raises
AttributeError, which the source does not catch. -/
def validate (extracted_data : ExtractedDataV) : Except PyErr ValidationResult :=
  let r0 := ValidationResult.init
  let r1 :=
    if titleblockTruthy extracted_data.titleblock then r0
    else add_warning r0 "No title block information found"
  match extracted_data.titleblock with
  | some none => .error .attributeError
  | tb =>
    let title_block : TitleBlock :=
      match tb with
      | some (some t) => t
      | _ =>
        { drawing_number := none, drawing_title := none, date := none,
          scale := none, revision := none, sheet_number := none }
    let r2 :=
      if optStrTruthy title_block.drawing_number then r1
      else add_error r1 "Missing drawing number"
    let r3 :=
      if optStrTruthy title_block.scale then r2
      else add_warning r2 "No scale information found"
    let r4 := extracted_data.specification.foldl measCheck r3
    .ok r4

/-! ### The core pipeline (src/DrawingParser.py, parse steps 2, 3 and 5)

The OCR acquisition, the specialized-parser dispatch and the raw-OCR echo
are outside the verified core; `coreParse` is classification plus the five
universal extractors merged into the stable result shape.  The source
wraps each extractor call in try/except, storing `None` on failure; the
embedded extractors are total functions, so the fields are direct. -/

/-- The `classification` sub-dict of the result (note the source does not
include `has_specifications` in it). -/
structure ClassificationOut where
  dtype : String
  discipline : String
  confidence : Frac
  has_table : Bool
  has_notes : Bool
  has_legend : Bool
deriving DecidableEq, Repr

structure UniversalData where
  titleblock : TitleBlock
  notes : List Note
  specification : List SpecRecord
  reference : List Reference
  table : List Table
deriving DecidableEq, Repr

structure CoreResult where
  classification : ClassificationOut
  universal_data : UniversalData
deriving DecidableEq, Repr

/-- Steps 2, 3 and 5 of `DrawingParser.parse`: join the item texts,
classify (KeyError propagates: the call is not inside a try), compute the
basic zones (ValueError propagates), run the five universal extractors,
merge.  `setOrder` is the interpreter's set-iteration order used by the
specification extractor. -/
def coreParse (setOrder : List String → List String)
    (text_items : List TextItem) : Except PyErr CoreResult := do
  let full_text := joinTexts text_items
  let classification ← classify_drawing full_text text_items
  let _zones ← identify_basic_zones text_items
  Except.ok
    { classification :=
        { dtype := classification.drawing_type.value,
          discipline := classification.discipline.value,
          confidence := classification.confidence,
          has_table := classification.has_table,
          has_notes := classification.has_notes,
          has_legend := classification.has_legend },
      universal_data :=
        { titleblock := titleBlockExtract text_items,
          notes := notesExtract text_items,
          specification := specificationExtract setOrder text_items,
          reference := referenceExtract text_items,
          table := tableExtract text_items } }

/-! ### Concrete inputs used by the theorems below -/

/-- A text item at the given position (confidence and page are irrelevant
to every claim; width 1/10 and height 1/100 are arbitrary positives). -/
def mkItem (t : String) (l tp : Frac) : TextItem :=
  { text := t, confidence := ⟨90, 1, by decide⟩,
    bbox := { left := l, top := tp, width := ⟨1, 10, by decide⟩,
              height := ⟨1, 100, by decide⟩ },
    page := 1 }

/-- Model of the set-iteration order of a CPython run whose string hashes
happen to enumerate `set(materials)` in first-occurrence order. -/
def pySetOrder1 : List String → List String := fun xs => xs.dedup

/-- Model of the set-iteration order of a CPython run whose string hashes
happen to enumerate `set(materials)` in the reverse order. -/
def pySetOrder2 : List String → List String := fun xs => xs.dedup.reverse

/-- The specification list of a successful core-pipeline run. -/
def specOf (r : Except PyErr CoreResult) : Option (List SpecRecord) :=
  match r with
  | .ok c => some c.universal_data.specification
  | .error _ => none

/-- The title-block text of the spec's worked example. -/
def c4text : String := "DWG NO. C-16 SCALE: 1\"=20\x27 REV A"

/-- A bottom-zone text item (top = 0.9 > 0.85) carrying `c4text`. -/
def c4item : TextItem := mkItem c4text ⟨1, 10, by decide⟩ ⟨9, 10, by decide⟩

/-- The binary64 value of the decimal literal 0.1
(3602879701896397 / 2 ^ 55). -/
def f64_0_10 : Frac := ⟨3602879701896397, 36028797018963968, by decide⟩

/-- The binary64 value of the decimal literal 0.12
(1080863910568919 / 2 ^ 53). -/
def f64_0_12 : Frac := ⟨1080863910568919, 9007199254740992, by decide⟩

/-- The binary64 value of the decimal literal 0.14
(1261007895663739 / 2 ^ 53). -/
def f64_0_14 : Frac := ⟨1261007895663739, 9007199254740992, by decide⟩

/-- The binary64 value of the decimal literal 0.4
(3602879701896397 / 2 ^ 53). -/
def f64_0_40 : Frac := ⟨3602879701896397, 9007199254740992, by decide⟩

/-- The binary64 value of the decimal literal 0.7
(3152519739159347 / 2 ^ 52). -/
def f64_0_70 : Frac := ⟨3152519739159347, 4503599627370496, by decide⟩

/-- The synthetic 3-by-3 grid: rows at top 0.10, 0.12, 0.14, three items
per row at left 0.1, 0.4, 0.7.  The coordinates are the binary64 values
of those decimal literals, since the program stores them as Python
floats. -/
def c5items : List TextItem :=
  [mkItem "A1" f64_0_10 f64_0_10,
   mkItem "A2" f64_0_40 f64_0_10,
   mkItem "A3" f64_0_70 f64_0_10,
   mkItem "B1" f64_0_10 f64_0_12,
   mkItem "B2" f64_0_40 f64_0_12,
   mkItem "B3" f64_0_70 f64_0_12,
   mkItem "C1" f64_0_10 f64_0_14,
   mkItem "C2" f64_0_40 f64_0_14,
   mkItem "C3" f64_0_70 f64_0_14]

/-- A one-item list whose concatenated text is the spec's worked example. -/
def c6items : List TextItem :=
  [mkItem "PIPE SHALL BE 6 IN PVC PER ASTM D3034" ⟨1, 10, by decide⟩ ⟨1, 2, by decide⟩]

/-- A one-item list whose text contains two distinct material
abbreviations and a classifier keyword. -/
def c9items : List TextItem :=
  [mkItem "PVC SS PUMP" ⟨1, 10, by decide⟩ ⟨1, 2, by decide⟩]

/-- A validator input whose `universal_data` has no `titleblock` key. -/
def c8data : ExtractedDataV := { titleblock := none, specification := [] }

/-- A validator input with a complete title block and no specifications
(its validation is error-free). -/
def c10data : ExtractedDataV :=
  { titleblock := some (some
      { drawing_number := some "C-16", drawing_title := some "PLAN",
        date := none, scale := some "NTS", revision := none,
        sheet_number := none }),
    specification := [] }

/-! ### Bridge lemmas: `Frac` comparisons as rational-number facts -/

theorem Frac.den_q_pos (x : Frac) : (0 : ℚ) < (x.den : ℚ) := by
  exact_mod_cast x.den_pos

theorem Frac.blt_iff (x y : Frac) : Frac.blt x y = true ↔ x.toRat < y.toRat := by
  simp only [Frac.blt, decide_eq_true_eq, Frac.toRat]
  rw [div_lt_div_iff₀ x.den_q_pos y.den_q_pos]
  exact_mod_cast Iff.rfl

theorem Frac.ble_iff (x y : Frac) : Frac.ble x y = true ↔ x.toRat ≤ y.toRat := by
  simp only [Frac.ble, decide_eq_true_eq, Frac.toRat]
  rw [div_le_div_iff₀ x.den_q_pos y.den_q_pos]
  exact_mod_cast Iff.rfl

theorem Frac.toRat_add (x y : Frac) :
    (Frac.add x y).toRat = x.toRat + y.toRat := by
  have hx := x.den_q_pos.ne'
  have hy := y.den_q_pos.ne'
  simp only [Frac.add, Frac.toRat]
  push_cast
  field_simp

theorem Frac.toRat_mul (x y : Frac) :
    (Frac.mul x y).toRat = x.toRat * y.toRat := by
  have hx := x.den_q_pos.ne'
  have hy := y.den_q_pos.ne'
  simp only [Frac.mul, Frac.toRat]
  push_cast
  field_simp

theorem Frac.toRat_fmax (x y : Frac) :
    (Frac.fmax x y).toRat = max x.toRat y.toRat := by
  unfold Frac.fmax
  by_cases hb : Frac.blt x y = true
  · rw [if_pos hb]
    exact (max_eq_right ((Frac.blt_iff x y).mp hb).le).symm
  · rw [if_neg hb]
    have hnlt : ¬ x.toRat < y.toRat := fun hlt => hb ((Frac.blt_iff x y).mpr hlt)
    exact (max_eq_left (le_of_not_lt hnlt)).symm

theorem Frac.toRat_nonneg (x : Frac) (h : 0 ≤ x.num) : 0 ≤ x.toRat := by
  exact div_nonneg (by exact_mod_cast h) x.den_q_pos.le

theorem le_foldl_fmax (l : List Frac) :
    ∀ a : Frac, a.toRat ≤ (l.foldl Frac.fmax a).toRat := by
  induction l with
  | nil => intro a; simp
  | cons x xs ih =>
    intro a
    calc a.toRat ≤ (Frac.fmax a x).toRat := by
          rw [Frac.toRat_fmax]; exact le_max_left _ _
      _ ≤ ((x :: xs).foldl Frac.fmax a).toRat := by
          simpa using ih (Frac.fmax a x)

/-! ### C2: empty input crashes zone segmentation instead of signalling
an EmptyDocument condition -/

/-- C2.  On the empty TextItem list the default zone segmentation (and
likewise the pump-station re-segmentation) computes `max` of an empty
sequence and raises ValueError; no `EmptyDocument` condition exists
anywhere in the code, so the failure is the raw empty-sequence-max crash
the spec says must not happen. -/
theorem C2_empty_input_raises_valueerror_not_emptydocument :
    identify_basic_zones ([] : List TextItem) = .error .valueErrorEmptyMax ∧
    PumpStationParser.identify_zones ([] : List TextItem) = .error .valueErrorEmptyMax := by
  exact ⟨rfl, rfl⟩

/-! ### C4: the worked title-block example -/

/-- C4 counterexample.  On the bottom-zone item carrying
`DWG NO. C-16 SCALE: 1"=20' REV A`, the first drawing-number pattern
(`DWG`, separator run, alphanumeric group) captures `NO`, not `C-16`, and
the scale pattern's group (any characters except newline and comma) runs
to the end of the text, so the extractor contradicts the claimed
`drawing_number = "C-16"` and `scale = "1\"=20'"`. -/
theorem C4_counterexample_drawing_number_is_NO :
    (titleBlockExtract [c4item]).drawing_number = some "NO" ∧
    (titleBlockExtract [c4item]).drawing_number ≠ some "C-16" ∧
    (titleBlockExtract [c4item]).scale ≠ some "1\"=20\x27" := by
  refine ⟨by decide, by decide, by decide⟩

/-- C4 amended.  On that input the extractor returns
`drawing_number = "NO"`, `scale = "1\"=20' REV A"` and `revision = "A"`
(revision is as the claim states; the other two fields are what the
pattern order actually produces). -/
theorem C4_amended_titleblock_fields :
    (titleBlockExtract [c4item]).drawing_number = some "NO" ∧
    (titleBlockExtract [c4item]).scale = some "1\"=20\x27 REV A" ∧
    (titleBlockExtract [c4item]).revision = some "A" := by
  refine ⟨by decide, by decide, by decide⟩

/-! ### C5: the synthetic 3-by-3 grid -/

set_option maxRecDepth 4000 in
/-- C5 counterexample.  In binary64 the difference of the double literals
0.12 and 0.10 is 0.019999999999999997…, strictly below the double 0.02,
so the 0.12 items join the 0.10 row (the anchor `current_y` never
advances inside a row) and only 0.14 starts a new row: the program
returns one table with `row_count = 1` and `column_count = 6`, not the
claimed 2 and 3. -/
theorem C5_counterexample_rows_merge_in_binary64 :
    (tableExtract c5items).map (fun t => (t.row_count, t.column_count)) = [(1, 6)] ∧
    [((1 : Nat), (6 : Nat))] ≠ [(2, 3)] :=
  ⟨by decide, by decide⟩

set_option maxRecDepth 4000 in
/-- C5 amended.  The grid yields exactly one Table whose header row is
the six items of the merged 0.10/0.12 rows (stably sorted by `left`) and
whose single data row is the 0.14 row: `row_count = 1`,
`column_count = 6`. -/
theorem C5_amended_one_table_rows1_cols6 :
    tableExtract c5items =
      [{ headers := ["A1", "B1", "A2", "B2", "A3", "B3"],
         rows := [["C1", "C2", "C3"]],
         row_count := 1, column_count := 6 }] := by
  decide

/-! ### C7: the horsepower/phase collision -/

/-- C7 counterexample.  `"3 PHASE 3 HP 5 HP"` contains `"3 PHASE"` (at
index 0) and later `"5 HP"` (at index 11), yet the extraction reports
horsepower `"3"`: the leftmost digits-then-HP match is the earlier
`3 HP`, and the disambiguation re-search finds the same `3 HP` again. -/
theorem C7_counterexample_earlier_hp_wins :
    pyFind "3 PHASE 3 HP 5 HP" "3 PHASE" = some 0 ∧
    pyFind "3 PHASE 3 HP 5 HP" "5 HP" = some 13 ∧
    (extract_pump_data_text "3 PHASE 3 HP 5 HP").horsepower = some "3" ∧
    (extract_pump_data_text "3 PHASE 3 HP 5 HP").horsepower ≠ some "5" := by
  refine ⟨by decide, by decide, by decide, by decide⟩

/-- C7 amended.  For every pump-data text on which the explicit
`PUMP H.P.:`-style pattern finds no match and the leftmost
digits-then-HP match captures `"5"` (as in `"3 PHASE 5 HP"`, where the
only HP-suffixed number is the 5), the extraction reports horsepower
`"5"`: either the ordered pattern list already yields 5, or the
horsepowerphase collision triggers the re-search, which returns the same
leftmost HP match. -/
theorem C7_amended_hp_resolves_to_5 (t : String)
    (h1 : search PumpStationParser.patHp1 t = none)
    (h2 : searchGroup1 PumpStationParser.patHp2 t = some "5") :
    (extract_pump_data_text t).horsepower = some "5" := by
  have hg1 : searchGroup1 PumpStationParser.patHp1 t = none := by
    unfold searchGroup1
    rw [h1]
  have hff : PumpStationParser.firstFieldValue PumpStationParser.patsHorsepower t
      = some "5" := by
    simp only [PumpStationParser.patsHorsepower, PumpStationParser.firstFieldValue,
      hg1, h2]
    have h5 : pyStrip "5" = "5" := by decide
    simp [h5]
  unfold extract_pump_data_text
  simp only [hff, h2]
  rcases hp : PumpStationParser.firstFieldValue PumpStationParser.patsPhase t with _ | p
  · simp
  · simp only []
    by_cases he : "5" = p
    · simp [he]
    · simp [he]

/-- C7 amended, witness at `"3 PHASE 5 HP"`: the hypotheses hold there
and the horsepower resolves to `"5"` while the phase is `"3"`. -/
theorem C7_amended_witness :
    search PumpStationParser.patHp1 "3 PHASE 5 HP" = none ∧
    searchGroup1 PumpStationParser.patHp2 "3 PHASE 5 HP" = some "5" ∧
    (extract_pump_data_text "3 PHASE 5 HP").horsepower = some "5" :=
  ⟨by decide, by decide,
    C7_amended_hp_resolves_to_5 "3 PHASE 5 HP" (by decide) (by decide)⟩

/-! ### Validator helper lemmas -/

theorem measCheck_foldl_isvalid_false (l : List SpecRecord) :
    ∀ r : ValidationResult, r.is_valid = false →
      (l.foldl measCheck r).is_valid = false := by
  induction l with
  | nil => intro r h; simpa using h
  | cons s l ih =>
    intro r h
    refine ih (measCheck r s) ?_
    unfold measCheck add_error
    split
    · split
      · exact h
      · rfl
    · exact h

theorem measCheck_foldl_mem (l : List SpecRecord) :
    ∀ (r : ValidationResult) (m : String), m ∈ r.errors →
      m ∈ (l.foldl measCheck r).errors := by
  induction l with
  | nil => intro r m h; simpa using h
  | cons s l ih =>
    intro r m h
    refine ih (measCheck r s) m ?_
    unfold measCheck add_error
    split
    · split
      · exact h
      · simp only [List.mem_append]
        exact Or.inl h
    · exact h

/-- The validity flag tracks error-list emptiness through one `measCheck`
step. -/
theorem measCheck_inv (r : ValidationResult) (s : SpecRecord)
    (h : r.is_valid = true ↔ r.errors = []) :
    (measCheck r s).is_valid = true ↔ (measCheck r s).errors = [] := by
  unfold measCheck add_error
  split
  · split
    · exact h
    · simp
  · exact h

theorem measCheck_foldl_inv (l : List SpecRecord) :
    ∀ r : ValidationResult, (r.is_valid = true ↔ r.errors = []) →
      ((l.foldl measCheck r).is_valid = true ↔ (l.foldl measCheck r).errors = []) := by
  induction l with
  | nil => intro r h; simpa using h
  | cons s l ih => intro r h; exact ih (measCheck r s) (measCheck_inv r s h)

/-! ### C8: a missing drawing number always invalidates the result -/

/-- C8.  For every validator input whose titleblock key is absent, or
whose titleblock record has a null (or empty) drawing number, `validate`
returns a result with `is_valid = false` whose error list contains the
missing-drawing-number message.  (The embedding is purely functional, so
the input record is unchanged by construction; the source likewise only
reads `extracted_data`.) -/
theorem C8_missing_drawing_number_invalidates (ed : ExtractedDataV)
    (h : ed.titleblock = none ∨
      ∃ tb, ed.titleblock = some (some tb) ∧ tb.drawing_number = none) :
    ∃ vr, validate ed = .ok vr ∧ vr.is_valid = false ∧
      "Missing drawing number" ∈ vr.errors := by
  unfold validate
  rcases h with h | ⟨tb, h, hdn⟩
  · rw [h]
    refine ⟨_, rfl, ?_, ?_⟩
    · exact measCheck_foldl_isvalid_false _ _ rfl
    · refine measCheck_foldl_mem _ _ _ ?_
      simp [titleblockTruthy, add_error, add_warning, optStrTruthy,
        ValidationResult.init]
  · rw [h]
    refine ⟨_, rfl, ?_, ?_⟩
    · apply measCheck_foldl_isvalid_false
      simp only [hdn, optStrTruthy, add_error, add_warning]
      split <;> rfl
    · refine measCheck_foldl_mem _ _ _ ?_
      simp only [hdn, optStrTruthy, add_error, add_warning, titleblockTruthy]
      split <;> simp

/-- C8 witness: the input with no titleblock key validates to an invalid
result whose errors contain the missing-drawing-number message. -/
theorem C8_witness :
    ∃ vr, validate c8data = .ok vr ∧ vr.is_valid = false ∧
      "Missing drawing number" ∈ vr.errors :=
  C8_missing_drawing_number_invalidates c8data (Or.inl rfl)

/-! ### C10: the validity flag is exactly error-list emptiness -/

/-- C10.  Whenever `validate` returns, the flag equals emptiness of the
error list; `add_warning` never changes the flag, and `add_error` always
clears it while making the error list non-empty. -/
theorem C10_is_valid_iff_no_errors :
    (∀ (ed : ExtractedDataV) (vr : ValidationResult),
      validate ed = .ok vr → (vr.is_valid = true ↔ vr.errors = [])) ∧
    (∀ (r : ValidationResult) (m : String),
      (add_warning r m).is_valid = r.is_valid) ∧
    (∀ (r : ValidationResult) (m : String),
      (add_error r m).is_valid = false ∧ (add_error r m).errors ≠ []) := by
  refine ⟨?_, fun r m => rfl, fun r m => ⟨rfl, by simp [add_error]⟩⟩
  intro ed vr h
  unfold validate at h
  rcases htb : ed.titleblock with _ | tbv
  · rw [htb] at h
    simp only [Except.ok.injEq] at h
    subst h
    apply measCheck_foldl_inv
    simp [titleblockTruthy, add_error, add_warning, optStrTruthy,
      ValidationResult.init]
  · rcases tbv with _ | tb
    · rw [htb] at h
      exact absurd h (by simp)
    · rw [htb] at h
      simp only [Except.ok.injEq] at h
      subst h
      apply measCheck_foldl_inv
      by_cases hdn : optStrTruthy tb.drawing_number
      · by_cases hsc : optStrTruthy tb.scale
        · simp [titleblockTruthy, hdn, hsc, add_warning, ValidationResult.init]
        · simp [titleblockTruthy, hdn, hsc, add_warning, ValidationResult.init]
      · by_cases hsc : optStrTruthy tb.scale
        · simp [titleblockTruthy, hdn, hsc, add_error, add_warning,
            ValidationResult.init]
        · simp [titleblockTruthy, hdn, hsc, add_error, add_warning,
            ValidationResult.init]

/-- C10 witness: on an input with a complete title block, `validate`
returns a valid result with an empty error list, and the equivalence of
the theorem holds for it. -/
theorem C10_witness :
    validate c10data = .ok { errors := [], warnings := [], is_valid := true } ∧
    ({ errors := [], warnings := [], is_valid := true } : ValidationResult).is_valid = true ∧
    (({ errors := [], warnings := [], is_valid := true } : ValidationResult).is_valid = true ↔
      ({ errors := [], warnings := [], is_valid := true } : ValidationResult).errors = []) :=
  ⟨by decide, rfl,
    C10_is_valid_iff_no_errors.1 c10data
      { errors := [], warnings := [], is_valid := true } (by decide)⟩

/-! ### C1: zero keyword scores crash the classifier -/

/-- C1 (code bug).  When every drawing-type keyword set scores zero, the
detected type is replaced by `UNKNOWN`, and the final confidence lookup
`type_scores[detected_type]` raises KeyError because `UNKNOWN` is not a
key of the score dict — `classify_drawing` does not return the UNKNOWN
classification the spec describes. -/
theorem C1_zero_scores_raise_keyerror (ocr_text : String)
    (text_items : List TextItem)
    (h : ∀ p ∈ typeKeywords, keywordScore (pyUpper ocr_text) p.2 = 0) :
    classify_drawing ocr_text text_items = .error .keyError := by
  have h1 := h (.PUMP_STATION, ["PUMP STATION", "PUMP", "WETWELL", "GPM", "TDH"])
    (by simp [typeKeywords])
  have h2 := h (.STANDARDS_DETAIL,
    ["STANDARD DETAIL", "ACCORDANCE WITH", "MINIMUM", "SEPARATION"])
    (by simp [typeKeywords])
  have h3 := h (.PIPING_DIAGRAM, ["P&ID", "PIPING", "VALVE", "FLOW"])
    (by simp [typeKeywords])
  have h4 := h (.FLOOR_PLAN, ["FLOOR PLAN", "ROOM", "ELEVATION", "LEVEL"])
    (by simp [typeKeywords])
  have h5 := h (.SITE_PLAN, ["SITE PLAN", "PROPERTY LINE", "LOT", "SETBACK"])
    (by simp [typeKeywords])
  have h6 := h (.SPECIFICATION_TABLE, ["SPECIFICATION", "REQUIREMENT", "TABLE"])
    (by simp [typeKeywords])
  unfold classify_drawing
  simp only [typeKeywords, List.map_cons, List.map_nil, h1, h2, h3, h4, h5, h6]
  simp only [argmaxFirst, List.foldl, List.find?]
  rfl

/-- C1 witness: the empty OCR text scores zero on every keyword set, and
`classify_drawing` returns the KeyError outcome on it. -/
theorem C1_witness :
    (∀ p ∈ typeKeywords, keywordScore (pyUpper "") p.2 = 0) ∧
    classify_drawing "" [] = .error .keyError := by
  refine ⟨?_, C1_zero_scores_raise_keyerror "" [] ?_⟩ <;>
    · intro p hp
      fin_cases hp <;> rfl

/-! ### C3: every zone scheme partitions the input -/

theorem count_filter_eq {α : Type} [DecidableEq α] (p : α → Bool) (a : α)
    (l : List α) : (l.filter p).count a = if p a then l.count a else 0 := by
  by_cases h : p a
  · rw [List.count_filter h, if_pos h]
  · rw [if_neg h]
    refine List.count_eq_zero.mpr (fun hm => ?_)
    have hx := List.of_mem_filter hm
    simp [h] at hx

theorem Frac.blt_eq_false_iff (x y : Frac) :
    Frac.blt x y = false ↔ ¬ x.toRat < y.toRat := by
  rw [← Frac.blt_iff]
  cases Frac.blt x y <;> simp

theorem Frac.ble_eq_false_iff (x y : Frac) :
    Frac.ble x y = false ↔ ¬ x.toRat ≤ y.toRat := by
  rw [← Frac.ble_iff]
  cases Frac.ble x y <;> simp

/-- The three conditions of the default scheme (below 15 percent, between
15 and 85 percent, above 85 percent of the page height) are mutually
exclusive and exhaustive as soon as the lower threshold does not exceed
the upper one. -/
theorem basic_trichotomy (A B t : Frac) (hAB : A.toRat ≤ B.toRat) :
    (Frac.blt t A = true ∧ (Frac.ble A t && Frac.ble t B) = false ∧
      Frac.blt B t = false) ∨
    (Frac.blt t A = false ∧ (Frac.ble A t && Frac.ble t B) = true ∧
      Frac.blt B t = false) ∨
    (Frac.blt t A = false ∧ (Frac.ble A t && Frac.ble t B) = false ∧
      Frac.blt B t = true) := by
  by_cases h1 : t.toRat < A.toRat
  · left
    refine ⟨(Frac.blt_iff t A).mpr h1, ?_, ?_⟩
    · have hA : Frac.ble A t = false := (Frac.ble_eq_false_iff A t).mpr (by linarith)
      simp [hA]
    · exact (Frac.blt_eq_false_iff B t).mpr (by linarith)
  · by_cases h2 : B.toRat < t.toRat
    · right; right
      refine ⟨(Frac.blt_eq_false_iff t A).mpr h1, ?_, (Frac.blt_iff B t).mpr h2⟩
      have hB : Frac.ble t B = false := (Frac.ble_eq_false_iff t B).mpr (by linarith)
      simp [hB]
    · right; left
      refine ⟨(Frac.blt_eq_false_iff t A).mpr h1, ?_,
        (Frac.blt_eq_false_iff B t).mpr h2⟩
      have hA : Frac.ble A t = true := (Frac.ble_iff A t).mpr (le_of_not_lt h1)
      have hB : Frac.ble t B = true := (Frac.ble_iff t B).mpr (le_of_not_lt h2)
      simp [hA, hB]

/-- The pump-station zones in declaration order. -/
def pumpConcat (z : PumpZones) : List TextItem :=
  z.key_section ++ z.pump_data_box ++ z.elevation_labels ++ z.title_block ++ z.general

/-- The standards-detail zones in declaration order. -/
def stdConcat (z : StdZones) : List TextItem :=
  z.title ++ z.table_area ++ z.notes_area ++ z.diagram_area

theorem pumpAssign_count (mx my : Frac) (z : PumpZones) (it a : TextItem) :
    (pumpConcat (PumpStationParser.assignZone mx my z it)).count a
      = (pumpConcat z).count a + List.count a [it] := by
  simp only [PumpStationParser.assignZone, pumpConcat]
  split_ifs <;> simp [List.count_append, List.count_cons] <;> omega

theorem pump_foldl_count (mx my : Frac) (l : List TextItem) :
    ∀ (z : PumpZones) (a : TextItem),
      (pumpConcat (l.foldl (PumpStationParser.assignZone mx my) z)).count a
        = (pumpConcat z).count a + l.count a := by
  induction l with
  | nil => intro z a; simp
  | cons x l ih =>
    intro z a
    simp only [List.foldl_cons]
    rw [ih, pumpAssign_count]
    simp only [List.count_cons, List.count_nil]
    omega

theorem stdAssign_count (z : StdZones) (it a : TextItem) :
    (stdConcat (StandardsDetailParser.assignZone z it)).count a
      = (stdConcat z).count a + List.count a [it] := by
  simp only [StandardsDetailParser.assignZone, stdConcat]
  split_ifs <;> simp [List.count_append, List.count_cons] <;> omega

theorem std_foldl_count (l : List TextItem) :
    ∀ (z : StdZones) (a : TextItem),
      (stdConcat (l.foldl StandardsDetailParser.assignZone z)).count a
        = (stdConcat z).count a + l.count a := by
  induction l with
  | nil => intro z a; simp
  | cons x l ih =>
    intro z a
    simp only [List.foldl_cons]
    rw [ih, stdAssign_count]
    simp only [List.count_cons, List.count_nil]
    omega

/-- C3.  For every non-empty item list with the data model's non-negative
coordinates, each of the three zone schemes partitions the input: the
concatenation of the zones of a scheme is a permutation of the input list
(so every item lands in exactly one zone, nothing is dropped, nothing is
duplicated across zones). -/
theorem C3_zone_schemes_partition (items : List TextItem)
    (hne : items ≠ [])
    (hnn : ∀ it ∈ items, 0 ≤ it.bbox.top.num ∧ 0 ≤ it.bbox.height.num) :
    (∃ z, identify_basic_zones items = .ok z ∧
      List.Perm (z.top ++ z.middle ++ z.bottom) items) ∧
    (∃ pz, PumpStationParser.identify_zones items = .ok pz ∧
      List.Perm (pz.key_section ++ pz.pump_data_box ++ pz.elevation_labels
        ++ pz.title_block ++ pz.general) items) ∧
    List.Perm
      ((StandardsDetailParser.identify_zones items).title
        ++ (StandardsDetailParser.identify_zones items).table_area
        ++ (StandardsDetailParser.identify_zones items).notes_area
        ++ (StandardsDetailParser.identify_zones items).diagram_area) items := by
  rcases items with _ | ⟨it0, rest⟩
  · exact absurd rfl hne
  refine ⟨?_, ?_, ?_⟩
  · -- default scheme
    refine ⟨_, rfl, ?_⟩
    have hph0 : 0 ≤ ((rest.map fun it => Frac.add it.bbox.top it.bbox.height).foldl
        Frac.fmax (Frac.add it0.bbox.top it0.bbox.height)).toRat := by
      have h00 := hnn it0 (by simp)
      have h0 : 0 ≤ (Frac.add it0.bbox.top it0.bbox.height).toRat := by
        rw [Frac.toRat_add]
        have t1 := Frac.toRat_nonneg _ h00.1
        have t2 := Frac.toRat_nonneg _ h00.2
        linarith
      exact le_trans h0 (le_foldl_fmax _ _)
    apply List.perm_iff_count.mpr
    intro a
    simp only [List.count_append]
    rw [count_filter_eq, count_filter_eq, count_filter_eq]
    have h15 : ((⟨15, 100, by decide⟩ : Frac).toRat) = 15/100 := by
      norm_num [Frac.toRat]
    have h85 : ((⟨85, 100, by decide⟩ : Frac).toRat) = 85/100 := by
      norm_num [Frac.toRat]
    have hAB : (Frac.mul ((rest.map fun it => Frac.add it.bbox.top it.bbox.height).foldl
          Frac.fmax (Frac.add it0.bbox.top it0.bbox.height)) ⟨15, 100, by decide⟩).toRat
        ≤ (Frac.mul ((rest.map fun it => Frac.add it.bbox.top it.bbox.height).foldl
          Frac.fmax (Frac.add it0.bbox.top it0.bbox.height)) ⟨85, 100, by decide⟩).toRat := by
      rw [Frac.toRat_mul, Frac.toRat_mul, h15, h85]
      nlinarith [hph0]
    rcases basic_trichotomy _ _ a.bbox.top hAB with ⟨e1, e2, e3⟩ | ⟨e1, e2, e3⟩ | ⟨e1, e2, e3⟩ <;>
      simp [e1, e2, e3]
  · -- pump-station scheme
    refine ⟨_, rfl, ?_⟩
    apply List.perm_iff_count.mpr
    intro a
    have := pump_foldl_count
      ((rest.map fun it => Frac.add it.bbox.left it.bbox.width).foldl Frac.fmax
        (Frac.add it0.bbox.left it0.bbox.width))
      ((rest.map fun it => Frac.add it.bbox.top it.bbox.height).foldl Frac.fmax
        (Frac.add it0.bbox.top it0.bbox.height))
      (it0 :: rest)
      { key_section := [], pump_data_box := [], elevation_labels := [],
        title_block := [], general := [] } a
    simpa [pumpConcat] using this
  · -- standards-detail scheme
    apply List.perm_iff_count.mpr
    intro a
    have := std_foldl_count (it0 :: rest)
      { title := [], table_area := [], notes_area := [], diagram_area := [] } a
    simpa [StandardsDetailParser.identify_zones, stdConcat] using this

/-- C3 witness: the nine-item grid is non-empty with non-negative
coordinates, and all three schemes partition it. -/
theorem C3_witness :
    (c5items ≠ [] ∧
      ∀ it ∈ c5items, 0 ≤ it.bbox.top.num ∧ 0 ≤ it.bbox.height.num) ∧
    ((∃ z, identify_basic_zones c5items = .ok z ∧
      List.Perm (z.top ++ z.middle ++ z.bottom) c5items) ∧
    (∃ pz, PumpStationParser.identify_zones c5items = .ok pz ∧
      List.Perm (pz.key_section ++ pz.pump_data_box ++ pz.elevation_labels
        ++ pz.title_block ++ pz.general) c5items) ∧
    List.Perm
      ((StandardsDetailParser.identify_zones c5items).title
        ++ (StandardsDetailParser.identify_zones c5items).table_area
        ++ (StandardsDetailParser.identify_zones c5items).notes_area
        ++ (StandardsDetailParser.identify_zones c5items).diagram_area) c5items) :=
  ⟨⟨by decide, by intro it hit; fin_cases hit <;> exact ⟨by decide, by decide⟩⟩,
    C3_zone_schemes_partition c5items (by decide)
      (by intro it hit; fin_cases hit <;> exact ⟨by decide, by decide⟩)⟩

/-! ### Set-iteration orders -/

theorem validSetOrder_pySetOrder1 : ValidSetOrder pySetOrder1 := by
  intro xs
  exact ⟨List.nodup_dedup xs, fun a => List.mem_dedup⟩

theorem validSetOrder_pySetOrder2 : ValidSetOrder pySetOrder2 := by
  intro xs
  refine ⟨?_, fun a => ?_⟩
  · simpa [pySetOrder2] using List.nodup_dedup xs
  · simp [pySetOrder2, List.mem_dedup]

/-- Any valid set-iteration order is the identity on a one-element list. -/
theorem validSetOrder_singleton (so : List String → List String)
    (h : ValidSetOrder so) (a : String) : so [a] = [a] := by
  obtain ⟨hnd, hm⟩ := h [a]
  have ha : a ∈ so [a] := (hm a).mpr (by simp)
  rcases hso : so [a] with _ | ⟨x, rest⟩
  · rw [hso] at ha; cases ha
  · have hx : x = a := by
      have hx0 := (hm x).mp (by rw [hso]; simp)
      simpa using hx0
    subst hx
    rcases hrest : rest with _ | ⟨y, rest2⟩
    · rfl
    · have hy : y = x := by
        have hy0 := (hm y).mp (by rw [hso, hrest]; simp)
        simpa using hy0
      subst hy
      rw [hso, hrest] at hnd
      simp at hnd

/-! ### C6: the worked specification-extractor example -/

/-- C6.  For every valid set-iteration order, the specification extractor
on `PIPE SHALL BE 6 IN PVC PER ASTM D3034` produces a measurement record
with value 6 and unit IN, a material record with value PVC, and a
standard record carrying both ASTM (its value, from the single capture
group of the standards pattern) and D3034 (in its context window). -/
theorem C6_specification_extractor_example (so : List String → List String)
    (h : ValidSetOrder so) :
    (∃ r ∈ specificationExtract so c6items,
      r.rtype = "measurement" ∧ r.value = "6" ∧ r.unit = some "IN") ∧
    (∃ r ∈ specificationExtract so c6items,
      r.rtype = "material" ∧ r.value = "PVC") ∧
    (∃ r ∈ specificationExtract so c6items,
      r.rtype = "standard" ∧ containsSub r.value "ASTM" = true ∧
      containsSub r.context "ASTM" = true ∧
      containsSub r.context "D3034" = true) := by
  have hmat : findallG1 SpecificationExtractor.patMat (joinTexts c6items)
      = ["PVC"] := by decide
  have hso := validSetOrder_singleton so h "PVC"
  simp only [specificationExtract, hmat, hso]
  decide

/-- C6 witness at the dedup order. -/
theorem C6_witness :
    (∃ r ∈ specificationExtract pySetOrder1 c6items,
      r.rtype = "measurement" ∧ r.value = "6" ∧ r.unit = some "IN") ∧
    (∃ r ∈ specificationExtract pySetOrder1 c6items,
      r.rtype = "material" ∧ r.value = "PVC") ∧
    (∃ r ∈ specificationExtract pySetOrder1 c6items,
      r.rtype = "standard" ∧ containsSub r.value "ASTM" = true ∧
      containsSub r.context "ASTM" = true ∧
      containsSub r.context "D3034" = true) :=
  C6_specification_extractor_example pySetOrder1 validSetOrder_pySetOrder1

/-! ### C9: pipeline determinism up to the set-iteration order -/

theorem specificationExtract_perm (so1 so2 : List String → List String)
    (h1 : ValidSetOrder so1) (h2 : ValidSetOrder so2) (items : List TextItem) :
    List.Perm (specificationExtract so1 items) (specificationExtract so2 items) := by
  unfold specificationExtract
  refine List.Perm.append_right _ (List.Perm.append_left _ (List.Perm.map _ ?_))
  refine (List.perm_ext_iff_of_nodup
    (h1 (findallG1 SpecificationExtractor.patMat (joinTexts items))).1
    (h2 (findallG1 SpecificationExtractor.patMat (joinTexts items))).1).mpr
    (fun a => ?_)
  rw [(h1 (findallG1 SpecificationExtractor.patMat (joinTexts items))).2 a,
    (h2 (findallG1 SpecificationExtractor.patMat (joinTexts items))).2 a]

/-- C9 corrected (amended form).  Two pipeline runs over the same item
list whose interpreters enumerate `set(materials)` in possibly different
(but valid) orders fail identically, or succeed with identical
classification, title block, notes, references and tables, and
specification lists that are permutations of each other — equal outputs
are guaranteed only up to the order of the deduplicated material
records. -/
theorem C9_amended_deterministic_up_to_material_order
    (so1 so2 : List String → List String)
    (h1 : ValidSetOrder so1) (h2 : ValidSetOrder so2) (items : List TextItem) :
    (∃ e, coreParse so1 items = .error e ∧ coreParse so2 items = .error e) ∨
    (∃ r1 r2, coreParse so1 items = .ok r1 ∧ coreParse so2 items = .ok r2 ∧
      r1.classification = r2.classification ∧
      r1.universal_data.titleblock = r2.universal_data.titleblock ∧
      r1.universal_data.notes = r2.universal_data.notes ∧
      r1.universal_data.reference = r2.universal_data.reference ∧
      r1.universal_data.table = r2.universal_data.table ∧
      List.Perm r1.universal_data.specification
        r2.universal_data.specification) := by
  rcases hc : classify_drawing (joinTexts items) items with e | c
  · left
    refine ⟨e, ?_, ?_⟩ <;> (unfold coreParse; simp only [hc]; rfl)
  · rcases hz : identify_basic_zones items with e2 | z
    · left
      refine ⟨e2, ?_, ?_⟩ <;> (unfold coreParse; simp only [hc, hz]; rfl)
    · right
      have key : ∀ so : List String → List String, coreParse so items = .ok
          { classification :=
              { dtype := c.drawing_type.value, discipline := c.discipline.value,
                confidence := c.confidence, has_table := c.has_table,
                has_notes := c.has_notes, has_legend := c.has_legend },
            universal_data :=
              { titleblock := titleBlockExtract items, notes := notesExtract items,
                specification := specificationExtract so items,
                reference := referenceExtract items,
                table := tableExtract items } } := by
        intro so
        unfold coreParse
        simp only [hc, hz]
        rfl
      exact ⟨_, _, key so1, key so2, rfl, rfl, rfl, rfl, rfl,
        specificationExtract_perm so1 so2 h1 h2 items⟩

/-- C9 counterexample.  Two valid set-iteration orders on the input
`PVC SS PUMP` (two distinct materials) produce different pipeline
outputs: the two runs order the material records differently, so output
is not byte-identical across runs as the claim states. -/
theorem C9_counterexample_material_order_differs :
    ValidSetOrder pySetOrder1 ∧ ValidSetOrder pySetOrder2 ∧
    specOf (coreParse pySetOrder1 c9items) ≠ specOf (coreParse pySetOrder2 c9items) :=
  ⟨validSetOrder_pySetOrder1, validSetOrder_pySetOrder2, by decide⟩

/-- C9 amended, witness at the two concrete orders and the two-material
input. -/
theorem C9_amended_witness :
    (∃ e, coreParse pySetOrder1 c9items = .error e ∧
      coreParse pySetOrder2 c9items = .error e) ∨
    (∃ r1 r2, coreParse pySetOrder1 c9items = .ok r1 ∧
      coreParse pySetOrder2 c9items = .ok r2 ∧
      r1.classification = r2.classification ∧
      r1.universal_data.titleblock = r2.universal_data.titleblock ∧
      r1.universal_data.notes = r2.universal_data.notes ∧
      r1.universal_data.reference = r2.universal_data.reference ∧
      r1.universal_data.table = r2.universal_data.table ∧
      List.Perm r1.universal_data.specification
        r2.universal_data.specification) :=
  C9_amended_deterministic_up_to_material_order pySetOrder1 pySetOrder2
    validSetOrder_pySetOrder1 validSetOrder_pySetOrder2 c9items

/-- Documentation of the uncaught path of `validate`: when the
`titleblock` key holds Python `None` (the pipeline stores `None` when the
title-block extractor raised), `title_block.get('drawing_number')` is a
method call on `None` and raises AttributeError. -/
theorem validate_none_titleblock_attributeerror (ed : ExtractedDataV)
    (h : ed.titleblock = some none) : validate ed = .error .attributeError := by
  unfold validate
  rw [h]

/-- Witness: the AttributeError path at a concrete input. -/
theorem validate_none_titleblock_attributeerror_example :
    validate { titleblock := some none, specification := [] } = .error .attributeError :=
  validate_none_titleblock_attributeerror _ rfl
